import Mathlib

/-!
Verification of the Motor Antifraude decision pipeline
(`app/services/fraud_orchestrator.py` and the detector services it
consumes).  The Python services are shallowly embedded: pure functions
become Lean functions, Redis reads become explicit inputs (an `Option`
value whose `none` models a cache error or an exception inside the
detector), Python `float` scores become `ℚ`, Python `int` becomes `ℤ`.
The constant weights `0.25/0.20/0.15` are modelled as the exact rationals
`25/100`, `20/100`, `15/100`; every claim proved here is insensitive to
the difference between those rationals and their IEEE-754 images.
-/

/-- Python `int(max(0.0, min(100.0, x)))` for a float `x`: after the clamp
the value is nonnegative, so truncation towards zero equals the floor. -/
def clampQ (x : ℚ) : ℚ := max 0 (min 100 x)

/-- Python `int(max(0, min(100, n)))` applied to an `int` expression. -/
def clampI (n : ℤ) : ℤ := max 0 (min 100 n)

/-- Score clamp followed by Python `int(...)` truncation (the argument is
nonnegative after `clampQ`, so this is the floor). -/
def clampFloor (x : ℚ) : ℤ := ⌊clampQ x⌋

/-- Order preserving de-duplication, keeping the first occurrence: the
semantics of both `list(dict.fromkeys(reason_codes))` in `_build_response`
and the `seen` set loop in `_build_breakdown`. -/
def pyDedupAux (seen : List String) : List String → List String
  | [] => []
  | c :: cs => if c ∈ seen then pyDedupAux seen cs else c :: pyDedupAux (c :: seen) cs

/-- De-duplication with an empty starting `seen` set. -/
def pyDedup (l : List String) : List String := pyDedupAux [] l

/-- Stable insertion used to model Python `list.sort` (a stable sort):
`le e x = true` means `e` may be placed before `x`; on ties the element
already earlier in the list stays first. -/
def insertBy {α : Type} (le : α → α → Bool) (e : α) : List α → List α
  | [] => [e]
  | x :: xs => if le e x then e :: x :: xs else x :: insertBy le e xs

/-- Stable sort (insertion sort): same ordering semantics as Python
`sorted`/`list.sort` with the corresponding key. -/
def sortBy {α : Type} (le : α → α → Bool) (l : List α) : List α :=
  l.foldr (insertBy le) []

/-- Source `app/domain/schemas.py` — `ActionDecision` (a `str` enum). -/
inductive ActionDecision
  | approve
  | challenge_soft
  | challenge_hard
  | block_review
  | block_perm
deriving DecidableEq

/-- The `.value` string of each `ActionDecision` member. -/
def actionValue : ActionDecision → String
  | .approve        => "ACTION_APPROVE"
  | .challenge_soft => "ACTION_CHALLENGE_SOFT"
  | .challenge_hard => "ACTION_CHALLENGE_HARD"
  | .block_review   => "ACTION_BLOCK_REVIEW"
  | .block_perm     => "ACTION_BLOCK_PERM"

/-- How restrictive an action is (used to state monotonicity of the
decision mapping); larger rank = more restrictive. -/
def actionRank : ActionDecision → Nat
  | .approve        => 0
  | .challenge_soft => 1
  | .challenge_hard => 2
  | .block_review   => 3
  | .block_perm     => 4

/-- Source `app/domain/schemas.py` — `ChallengeType` (a `str` enum). -/
inductive ChallengeType
  | biometric
  | sms_otp
  | threeds
  | face_scan
deriving DecidableEq

/-- The `.value` string of each `ChallengeType` member. -/
def challengeValue : ChallengeType → String
  | .biometric => "BIOMETRIC"
  | .sms_otp   => "SMS_OTP"
  | .threeds   => "3DS"
  | .face_scan => "FACE_SCAN"

/-- Source `app/domain/schemas.py` — `KycLevel` (a `str` enum). -/
inductive KycLevel
  | nonekyc
  | basic
  | full
deriving DecidableEq

/-- Source `app/domain/schemas.py` — `ScoreEntry`. -/
structure ScoreEntry where
  code : String
  points : ℤ
  category : String
  description : String
deriving DecidableEq

/-- Source `fraud_orchestrator.py` — `_EXACT_CATALOG`: reason code →
(points, category, description), in source order. -/
def exactCatalog : List (String × ℤ × String × String) :=
  [ ("BLACKLIST_USER_HIT",              (100, "Lista negra",    "El usuario está en lista negra permanente."))
  , ("BLACKLIST_DEVICE_HIT",            (100, "Lista negra",    "El dispositivo está en lista negra permanente."))
  , ("BLACKLIST_IP_HIT",                (100, "Lista negra",    "La IP está en lista negra permanente."))
  , ("BLACKLIST_CARD_HIT",              (100, "Lista negra",    "El BIN de la tarjeta está bloqueado."))
  , ("IP_RATE_HIGH",                    (15,  "Velocidad",      "La IP ha hecho muchas peticiones en 60s — posible bot."))
  , ("IP_RATE_ELEVATED",                (10,  "Velocidad",      "La IP supera el umbral moderado de peticiones — actividad inusual."))
  , ("IP_RATE_EXTREME",                 (30,  "Velocidad",      "La IP supera el límite crítico — ataque en curso probable."))
  , ("USER_RATE_HIGH",                  (15,  "Velocidad",      "El usuario realizó muchas transacciones en 5 minutos."))
  , ("USER_RATE_ELEVATED",              (8,   "Velocidad",      "El usuario supera el umbral moderado de transacciones por minuto."))
  , ("USER_RATE_EXTREME",               (35,  "Velocidad",      "El usuario supera el límite crítico — cargos masivos."))
  , ("HIGH_VELOCITY_OR_LIMIT_EXCEEDED", (20,  "Velocidad",      "El usuario supera los límites de recarga o hay alta frecuencia de envíos."))
  , ("EMULATOR_OR_ROOT_DETECTED",       (25,  "Dispositivo",    "Se detectó emulador o dispositivo rooteado — técnica común de fraude."))
  , ("SUSPICIOUS_DEVICE_FINGERPRINT",   (15,  "Dispositivo",    "El fingerprint del dispositivo es anómalo o inconsistente."))
  , ("LEARNING_PERIOD_ACTIVE",          (0,   "Comportamiento", "Usuario con historial limitado — umbrales más permisivos."))
  , ("PROFILE_CHANGED_LAST_24H",        (25,  "Comportamiento", "El perfil fue modificado en las últimas 24h — señal de account takeover."))
  , ("PAYDAY_WINDOW_REDUCTION",         (0,   "Comportamiento", "Día de quincena — monto alto normal, no penalizado."))
  , ("P2P_NEW_RECIPIENT_FIRST_TX",      (10,  "Comportamiento", "Primer pago a este destinatario — sin historial de confianza."))
  , ("ACCOUNT_AGE_VERY_NEW",            (20,  "Historial",      "Cuenta con menos de 7 días — mayor riesgo estadístico."))
  , ("ACCOUNT_AGE_NEW",                 (10,  "Historial",      "Cuenta con menos de 30 días — historial insuficiente."))
  , ("AMOUNT_3X_ABOVE_AVERAGE",         (20,  "Historial",      "El monto es más de 3× el promedio mensual del usuario."))
  , ("HIGH_FAILED_TX_LAST_7D",          (25,  "Historial",      "5+ transacciones fallidas en 7 días — patrón de fraude activo."))
  , ("FAILED_TX_LAST_7D",               (10,  "Historial",      "3+ transacciones fallidas en los últimos 7 días."))
  , ("HIGH_AMOUNT_NO_KYC",              (15,  "Historial",      "Monto alto con KYC no completado — riesgo regulatorio y de fraude."))
  , ("INTERNATIONAL_CARD",              (10,  "Historial",      "Tarjeta emitida en el extranjero — mayor riesgo cross-border."))
  , ("SESSION_REPLAY_ATTACK",           (40,  "Sesión",         "El session_id ya fue usado — posible replay attack."))
  , ("SESSION_HIJACK_DETECTED",         (100, "Sesión",         "El session_id pertenece a otro usuario — session hijacking confirmado."))
  , ("IP_COUNTRY_JUMP_30MIN",           (25,  "IP History",     "El país de la IP cambió en < 30 min — posible VPN o cuenta compartida."))
  , ("IMPOSSIBLE_IP_JUMP_5MIN",         (50,  "IP History",     "Cambio de país de IP en < 5 min — físicamente imposible."))
  , ("GPS_OBFUSCATED_ZERO_COORDS",      (20,  "Geolocalización", "Coordenadas GPS en (0,0) — posible ocultamiento de ubicación real."))
  , ("TRAVELER_MODE_ACTIVE",            (0,   "Geolocalización", "Modo viajero activo — ubicación inusual esperada, no penalizado."))
  , ("DUAL_COUNTRY_MISMATCH",           (20,  "Geolocalización", "El país de la IP y el GPS no coinciden — posible VPN activa."))
  , ("TRIPLE_COUNTRY_MISMATCH",         (35,  "Geolocalización", "IP, GPS y país registrado no coinciden — alta probabilidad de fraude."))
  , ("IMPOSSIBLE_TRAVEL_DETECTED",      (50,  "Geolocalización", "El usuario aparece en dos ubicaciones físicamente imposibles."))
  , ("IMPOSSIBLE_TRAVEL",               (50,  "Geolocalización", "Viaje físicamente imposible entre la ubicación anterior y la actual."))
  , ("VPN_DETECTED",                    (20,  "Geolocalización", "Se detectó uso de VPN o proxy."))
  , ("ML_GEO_ANOMALY",                  (30,  "Geolocalización", "Modelo ML detectó anomalía geográfica en el patrón de movimiento."))
  , ("HIGH_RISK_IP_COUNTRY_RU",         (10,  "Geolocalización", "La IP proviene de Rusia — alto índice de fraude en pagos."))
  , ("HIGH_RISK_IP_COUNTRY_CN",         (10,  "Geolocalización", "La IP proviene de China."))
  , ("HIGH_RISK_IP_COUNTRY_KP",         (10,  "Geolocalización", "La IP proviene de Corea del Norte."))
  , ("HIGH_RISK_IP_COUNTRY_IR",         (10,  "Geolocalización", "La IP proviene de Irán."))
  , ("HIGH_RISK_IP_COUNTRY_NG",         (10,  "Geolocalización", "La IP proviene de Nigeria."))
  , ("NIGHT_TX_NEW_ACCOUNT",            (10,  "Hora / Patrón",  "Transacción de madrugada en cuenta nueva — patrón frecuente de fraude."))
  , ("PREVENTIVE_HOLD_NEW_ACCOUNT",     (10,  "P2P",            "Retención preventiva 24h — receptor nuevo recibiendo monto alto."))
  , ("OVERRIDE_IMPOSSIBLE_TRAVEL",      (100, "Override",       "Override: viaje imposible confirmado — score forzado a máximo."))
  , ("OVERRIDE_MULE_PATTERN_CONFIRMED", (100, "Override",       "Override: patrón de cuenta mula confirmado — score forzado a máximo."))
  ]

/-- Source `fraud_orchestrator.py` — `_PREFIX_CATALOG`: code prefix →
(points, category, description), in source (= dict insertion) order. -/
def prefixCatalog : List (String × ℤ × String × String) :=
  [ ("GPS_IP_COUNTRY_MISMATCH_",  (30,  "Geolocalización", "GPS indica país diferente al de la IP — posible VPN activa."))
  , ("GPS_IP_DISTANCE_",          (20,  "Geolocalización", "Distancia GPS↔IP inusualmente alta — el dispositivo no está donde dice ser."))
  , ("NEW_COUNTRY_",              (15,  "Geolocalización", "Primera transacción desde este país para este usuario."))
  , ("KNOWN_COUNTRY_REDUCTION_",  (-10, "Geolocalización", "País conocido del usuario — reducción por historial positivo."))
  , ("HIGH_RISK_COUNTRY_",        (25,  "Geolocalización", "País de alto riesgo para pagos electrónicos."))
  , ("HIGH_RISK_IP_COUNTRY_",     (10,  "Geolocalización", "IP proveniente de país con alto índice de fraude."))
  , ("CARD_TESTING_PATTERN_",     (40,  "Card Testing",    "Micro-tx de sondeo seguidas de monto grande (card testing)."))
  , ("RAPID_BIN_PROBE_",          (35,  "Card Testing",    "Múltiples tx con el mismo BIN en < 10 min — ataque de carding."))
  , ("TX_WITHIN_",                (15,  "Comportamiento",  "Login seguido inmediatamente de tx — patrón de bot o sesión secuestrada."))
  , ("CURRENCY_CHANGE_",          (12,  "Comportamiento",  "La moneda usada es diferente a la habitual del usuario."))
  , ("FIRST_WEEK_USER_DAY_",      (10,  "Historial",       "Primera semana de la cuenta — mayor riesgo estadístico."))
  , ("P2P_FREQUENT_RECIPIENT_",   (-8,  "Comportamiento",  "Destinatario frecuente con historial positivo — riesgo reducido."))
  , ("UNUSUAL_HOUR_",             (15,  "Hora / Patrón",   "El usuario nunca había sido activo en esta hora del día."))
  , ("AMOUNT_",                   (20,  "Comportamiento",  "El monto supera significativamente el promedio histórico del usuario."))
  , ("RECIPIENT_ACCOUNT_AGE_",    (20,  "P2P",             "El receptor tiene cuenta muy nueva — posible cuenta mula recién creada."))
  , ("RECIPIENT_HIGH_RISK_SCORE_", (15, "P2P",             "El receptor tiene historial de riesgo alto — el riesgo se propaga entre nodos."))
  , ("FANOUT_HIGH_1H_",           (30,  "P2P",             "El emisor envió a muchos destinatarios distintos en 1h — distribución de fondos robados."))
  , ("FANOUT_MEDIUM_24H_",        (15,  "P2P",             "Fan-out moderado en 24h — múltiples destinatarios distintos."))
  , ("RECIPIENT_FANIN_HIGH_1H_",  (25,  "P2P",             "El receptor recibe de muchas fuentes en 1h — señal fuerte de cuenta mula."))
  , ("RECIPIENT_FANIN_HIGH_24H_", (12,  "P2P",             "Fan-in moderado en 24h — el receptor acumula fondos de muchas fuentes."))
  , ("SMURFING_DAILY_VOL_",       (35,  "P2P",             "Patrón de smurfing: micro-tx acumuladas bajo el umbral regulatorio."))
  , ("RAPID_DRAIN_",              (40,  "P2P",             "El receptor drenó su saldo en < 2h — firma definitiva de cuenta mula."))
  ]

/-- Exact-key lookup in `_EXACT_CATALOG` (`code in _EXACT_CATALOG`). -/
def lookupExact (code : String) : Option (ℤ × String × String) :=
  (exactCatalog.find? (fun e => e.1 == code)).map (·.2)

/-- First matching entry of `_PREFIX_CATALOG` (`code.startswith(prefix)`
in dict-insertion order, `break` on the first match). -/
def lookupPrefixed (code : String) : Option (ℤ × String × String) :=
  (prefixCatalog.find? (fun e => code.startsWith e.1)).map (·.2)

/-- The `ScoreEntry` that `_build_breakdown` emits for one reason code:
exact catalog first, then prefix catalog, else points 0 / category Otro. -/
def catalogEntry (code : String) : ScoreEntry :=
  match lookupExact code with
  | some (pts, cat, desc) => ⟨code, pts, cat, desc⟩
  | none =>
    match lookupPrefixed code with
    | some (pts, cat, desc) => ⟨code, pts, cat, desc⟩
    | none =>
      ⟨code, 0, "Otro", "Señal detectada: " ++ ((code.replace ("_") (" ")).toLower) ++ "."⟩

/-- Source `fraud_orchestrator.py` — `_build_breakdown`: de-duplicate keeping the
first occurrence, resolve each code through the catalog, then
`entries.sort(key=lambda e: e.points, reverse=True)` (stable descending). -/
def buildBreakdown (reason_codes : List String) : List ScoreEntry :=
  sortBy (fun a b => decide (b.points ≤ a.points))
    ((pyDedup reason_codes).map catalogEntry)

/-! ### HMAC-SHA256 signing (`hashlib.sha256` / `hmac.new(...).hexdigest()`)

Executable byte-level model: messages are lists of byte values
(`Nat < 256`), words are `Nat` reduced mod `2^32`. -/

/-- Wrap-around addition on 32 bits. -/
def add32 (a b : Nat) : Nat := (a + b) % 4294967296

/-- Right rotation on 32 bits. -/
def rotr32 (x n : Nat) : Nat :=
  ((x >>> n) ||| (x <<< (32 - n))) % 4294967296

/-- Bitwise complement on 32 bits. -/
def not32 (x : Nat) : Nat := 4294967295 - (x % 4294967296)

/-- Round constant table of SHA-256 (FIPS 180-4), written in decimal. -/
def sha256K : List Nat :=
  [
    1116352408, 1899447441, 3049323471, 3921009573, 961987163, 1508970993,
    2453635748, 2870763221, 3624381080, 310598401, 607225278, 1426881987,
    1925078388, 2162078206, 2614888103, 3248222580, 3835390401, 4022224774,
    264347078, 604807628, 770255983, 1249150122, 1555081692, 1996064986,
    2554220882, 2821834349, 2952996808, 3210313671, 3336571891, 3584528711,
    113926993, 338241895, 666307205, 773529912, 1294757372, 1396182291,
    1695183700, 1986661051, 2177026350, 2456956037, 2730485921, 2820302411,
    3259730800, 3345764771, 3516065817, 3600352804, 4094571909, 275423344,
    430227734, 506948616, 659060556, 883997877, 958139571, 1322822218,
    1537002063, 1747873779, 1955562222, 2024104815, 2227730452, 2361852424,
    2428436474, 2756734187, 3204031479, 3329325298 ]

/-- Starting hash state of SHA-256, written in decimal. -/
def sha256H0 : List Nat :=
  [
    1779033703, 3144134277, 1013904242, 2773480762,
    1359893119, 2600822924, 528734635, 1541459225 ]

/-- SHA-256 padding: append `0x80`, zeros, and the 64-bit big-endian bit
length so the total length is a multiple of 64 bytes. -/
def sha256Pad (msg : List Nat) : List Nat :=
  let len := msg.length
  let zeros := (119 - (len % 64)) % 64
  let bitLen := len * 8
  msg ++ [0x80] ++ List.replicate zeros 0 ++
    ((List.range 8).map (fun i => (bitLen >>> ((7 - i) * 8)) % 256))

/-- Big-endian word assembly of 4 consecutive bytes of a chunk. -/
def wordAt (chunk : List Nat) (i : Nat) : Nat :=
  (chunk.getD (4 * i) 0) <<< 24 ||| (chunk.getD (4 * i + 1) 0) <<< 16 |||
  (chunk.getD (4 * i + 2) 0) <<< 8 ||| chunk.getD (4 * i + 3) 0

/-- Message schedule: 16 words from the chunk, extended to 64. -/
def sha256Schedule (chunk : List Nat) : Array Nat :=
  let w0 : Array Nat := ((List.range 16).map (wordAt chunk)).toArray
  (List.range 48).foldl
    (fun w t =>
      let x15 := w.getD (t + 1) 0
      let x2  := w.getD (t + 14) 0
      let s0  := rotr32 x15 7 ^^^ rotr32 x15 18 ^^^ (x15 >>> 3)
      let s1  := rotr32 x2 17 ^^^ rotr32 x2 19 ^^^ (x2 >>> 10)
      w.push (add32 (add32 (w.getD t 0) s0) (add32 (w.getD (t + 9) 0) s1)))
    w0

/-- One SHA-256 compression round. -/
def sha256Round (w : Array Nat) (st : List Nat) (t : Nat) : List Nat :=
  match st with
  | [a, b, c, d, e, f, g, h] =>
    let s1 := rotr32 e 6 ^^^ rotr32 e 11 ^^^ rotr32 e 25
    let ch := (e &&& f) ^^^ (not32 e &&& g)
    let t1 := add32 (add32 h s1) (add32 ch (add32 (sha256K.getD t 0) (w.getD t 0)))
    let s0 := rotr32 a 2 ^^^ rotr32 a 13 ^^^ rotr32 a 22
    let mj := (a &&& b) ^^^ (a &&& c) ^^^ (b &&& c)
    let t2 := add32 s0 mj
    [add32 t1 t2, a, b, c, add32 d t1, e, f, g]
  | other => other

/-- Process one 64-byte chunk against the running hash state. -/
def sha256Chunk (h : List Nat) (chunk : List Nat) : List Nat :=
  let w := sha256Schedule chunk
  let st := (List.range 64).foldl (sha256Round w) h
  (h.zip st).map (fun p => add32 p.1 p.2)

/-- Full SHA-256 over a byte list, producing the 32 digest bytes. -/
def sha256Bytes (msg : List Nat) : List Nat :=
  let padded := sha256Pad msg
  let chunks := (List.range (padded.length / 64)).map
    (fun i => (padded.drop (64 * i)).take 64)
  let hFinal := chunks.foldl sha256Chunk sha256H0
  hFinal.flatMap (fun wd => (List.range 4).map (fun i => (wd >>> ((3 - i) * 8)) % 256))

/-- HMAC-SHA256 (`hmac.new(key, msg, hashlib.sha256)`), block size 64. -/
def hmacSha256 (key msg : List Nat) : List Nat :=
  let k0 := if 64 < key.length then sha256Bytes key else key
  let k1 := k0 ++ List.replicate (64 - k0.length) 0
  let ipadKey := k1.map (fun b => b ^^^ 0x36)
  let opadKey := k1.map (fun b => b ^^^ 0x5c)
  sha256Bytes (opadKey ++ sha256Bytes (ipadKey ++ msg))

/-- Lowercase hex rendering of a byte list (`.hexdigest()`). -/
def toHex (bs : List Nat) : String :=
  String.mk (bs.flatMap (fun b => [Nat.digitChar (b / 16 % 16), Nat.digitChar (b % 16)]))

/-- Model of `hmac.new(key, msg, hashlib.sha256).hexdigest()`. -/
def hmacSha256Hex (key msg : List Nat) : String := toHex (hmacSha256 key msg)

/-- UTF-8 encoding of one scalar value. -/
def utf8EncodeNat (c : Nat) : List Nat :=
  if c < 0x80 then [c]
  else if c < 0x800 then [0xC0 ||| (c >>> 6), 0x80 ||| (c &&& 0x3F)]
  else if c < 0x10000 then
    [0xE0 ||| (c >>> 12), 0x80 ||| ((c >>> 6) &&& 0x3F), 0x80 ||| (c &&& 0x3F)]
  else
    [0xF0 ||| (c >>> 18), 0x80 ||| ((c >>> 12) &&& 0x3F),
     0x80 ||| ((c >>> 6) &&& 0x3F), 0x80 ||| (c &&& 0x3F)]

/-- Model of `str.encode()`: UTF-8 bytes of a string. -/
def utf8Bytes (s : String) : List Nat :=
  s.toList.flatMap (fun c => utf8EncodeNat c.toNat)

/-- Four lowercase hex digits (for a `\uXXXX` escape). -/
def hex4 (n : Nat) : String :=
  String.mk [Nat.digitChar (n >>> 12 % 16), Nat.digitChar (n >>> 8 % 16),
             Nat.digitChar (n >>> 4 % 16), Nat.digitChar (n % 16)]

/-- Model of `json.dumps` escaping of one character (`ensure_ascii=True`):
backslash, quote and the named control escapes, `\uXXXX` for the other
control and all non-ASCII characters (surrogate pairs beyond the BMP). -/
def jsonEscapeChar (c : Char) : String :=
  let n := c.toNat
  if n = 92 then ("\\\\")
  else if n = 34 then ("\\\"")
  else if n = 8 then ("\\b")
  else if n = 9 then ("\\t")
  else if n = 10 then ("\\n")
  else if n = 12 then ("\\f")
  else if n = 13 then ("\\r")
  else if n < 32 then ("\\u") ++ hex4 n
  else if n ≤ 126 then String.singleton c
  else if n ≤ 65535 then ("\\u") ++ hex4 n
  else ("\\u") ++ hex4 (55296 + ((n - 65536) >>> 10)) ++ "\\u" ++ hex4 (56320 + ((n - 65536) &&& 1023))

/-- JSON rendering of a string value. -/
def jsonStr (s : String) : String :=
  "\"" ++ String.join (s.toList.map jsonEscapeChar) ++ "\""

/-- A JSON value of the signable object (a string or an int). -/
inductive JsonVal
  | jstr (s : String)
  | jint (n : ℤ)

/-- JSON rendering of a `JsonVal` (Python renders ints with `repr`). -/
def renderJsonVal : JsonVal → String
  | .jstr s => jsonStr s
  | .jint n => toString n

/-- The three pieces `key`, `":"`, `value` of one object member
(`separators=(",", ":")` puts no space after the colon). -/
def kvPieces (kv : String × JsonVal) : List String :=
  [jsonStr kv.1, ":", renderJsonVal kv.2]

/-- Join member piece-lists with the `","` item separator. -/
def joinComma : List (List String) → List String
  | [] => []
  | [x] => x
  | x :: xs => x ++ [","] ++ joinComma xs

/-- Code-point lexicographic string order — the comparison Python uses to
sort `str` keys. -/
def lexLe : List Char → List Char → Bool
  | [], _ => true
  | _ :: _, [] => false
  | x :: xs, y :: ys =>
    if x.toNat < y.toNat then true
    else if x.toNat = y.toNat then lexLe xs ys
    else false

/-- String comparison lifted from `lexLe`. -/
def strLe (a b : String) : Bool := lexLe a.toList b.toList

/-- Model of `json.dumps(obj, sort_keys=True, separators=(",", ":"))` for a flat
object: members sorted by key (code-point order, as in Python), minimal
separators, escaped strings. -/
def jsonDumpsSorted (kvs : List (String × JsonVal)) : String :=
  String.join (["\x7b"] ++
    joinComma ((sortBy (fun a b => strLe a.1 b.1) kvs).map kvPieces) ++ ["\x7d"])

/-- Source `fraud_orchestrator.py` — the `signable` object of `_build_response`:
the dict literal with keys `transaction_id`, `action`, `risk_score` in
source insertion order, serialized sorted with minimal separators. -/
def signablePayload (txid actionVal : String) (score : ℤ) : String :=
  jsonDumpsSorted
    [("transaction_id", .jstr txid), ("action", .jstr actionVal), ("risk_score", .jint score)]

/-- Canonical form stated by the spec: the JSON object with exactly the
keys `transaction_id`, `action`, `risk_score`, serialized with sorted
keys (`action`, `risk_score`, `transaction_id`) and `(",", ":")`
separators, no extra whitespace. -/
def canonicalSignable (txid actionVal : String) (score : ℤ) : String :=
  String.join
    ["\x7b", "\"action\"", ":", jsonStr actionVal, ",",
     "\"risk_score\"", ":", toString score, ",",
     "\"transaction_id\"", ":", jsonStr txid, "\x7d"]

/-! ### Blacklist service (`app/services/blacklist_service.py`) -/

/-- Enum `BlacklistType` (a `str` enum); only the four entity types the
orchestrator passes are exercised by `evaluate_transaction`. -/
inductive BlacklistType
  | user
  | device
  | ip
  | bin
  | email
  | phone
deriving DecidableEq

/-- The `.value` string of a `BlacklistType` member. -/
def blacklistTypeValue : BlacklistType → String
  | .user   => "user"
  | .device => "device"
  | .ip     => "ip"
  | .bin    => "bin"
  | .email  => "email"
  | .phone  => "phone"

/-- Dataclass `BlacklistHit`. -/
structure BlacklistHit where
  hit : Bool
  blacklist_type : Option BlacklistType := none
  reason : Option String := none
  added_by : Option String := none
deriving DecidableEq

/-- The Redis key of a blacklist entry: `blacklist:{type}:{value}`. -/
def blacklistKey (t : BlacklistType) (v : String) : String :=
  "blacklist:" ++ blacklistTypeValue t ++ ":" ++ v

/-- The cache as seen through `mget`, already decoded to `str`
(`BlacklistService.check` decodes byte values before use). -/
abbrev BlacklistCache := String → Option String

/-- Model of `BlacklistService.check` for the four entities the orchestrator
passes (no email / phone): one `mget` over the keys in dict insertion
order (user, device, ip, bin); the first present value is the hit.  A
`none` cache models the `except` branch around `mget`: the check reports
a miss (fail-open). -/
def blacklistCheck (cache : Option BlacklistCache)
    (user_id device_id ip_address card_bin : String) : BlacklistHit :=
  match cache with
  | none => { hit := false }
  | some get =>
    let pairs : List (BlacklistType × String) :=
      [(.user, user_id), (.device, device_id), (.ip, ip_address), (.bin, card_bin)]
    match pairs.findSome? (fun p => (get (blacklistKey p.1 p.2)).map (fun r => (p.1, r))) with
    | some (t, r) =>
      { hit := true, blacklist_type := some t, reason := some r, added_by := some ("system") }
    | none => { hit := false }

/-! ### Session guard (`app/services/session_guard.py`)

`redis_client.py` creates the shared client with `decode_responses=False`
(line 97), so `redis.get` returns `bytes`.  `SessionGuard.check` compares
that raw value with the `str` user id (`existing_user == user_id`,
line 56) without decoding.  We model Python values of both types and the
cross-type `==`, which in Python is `False` for `bytes` vs `str`. -/

/-- A Python value as returned from / compared against the Redis client:
either a `bytes` value (a byte list) or a `str`. -/
inductive PyVal
  | pybytes (bs : List Nat)
  | pystr (s : String)

/-- Python `==` between such values: equal only when the types match and
the contents match; `bytes == str` is always `False` in Python 3. -/
def pyEq : PyVal → PyVal → Bool
  | .pybytes a, .pybytes b => a == b
  | .pystr a, .pystr b => a == b
  | _, _ => false

/-- Dataclass `SessionGuardResult`. -/
structure SessionGuardResult where
  penalty : ℤ := 0
  reason_codes : List String := []
  override_block : Bool := false
deriving DecidableEq

/-- The session keyspace: Redis string keys to raw byte values
(`decode_responses=False`). -/
abbrev SessionStore := String → Option (List Nat)

/-- Model of `SessionGuard.check`: atomic `SET key user_id NX EX 3600`.  If the
key was absent the request claims it (clean result) and the store now
maps the key to the UTF-8 bytes of the user id; otherwise the stored
bytes are compared (`==`) with the `str` user id — replay on equality,
hijack otherwise.  Returns the result and the possibly-updated store.
(A Redis error returns the default clean result and leaves the store
unchanged; that branch is not modelled separately.) -/
def sessionGuardCheck (store : SessionStore) (session_id user_id : String) :
    SessionGuardResult × SessionStore :=
  let key := "session:" ++ session_id
  match store key with
  | none =>
    ({}, fun k => if k = key then some (utf8Bytes user_id) else store k)
  | some existing =>
    if pyEq (.pybytes existing) (.pystr user_id) then
      ({ penalty := 40, reason_codes := ["SESSION_REPLAY_ATTACK"] }, store)
    else
      ({ penalty := 60, reason_codes := ["SESSION_HIJACK_DETECTED"], override_block := true },
       store)

/-! ### Time-pattern scorer (`app/services/time_pattern_scorer.py`) -/

/-- Dataclass `TimePatternResult`. -/
structure TimePatternResult where
  penalty : ℤ := 0
  reason_codes : List String := []
deriving DecidableEq

/-- Model of `TimePatternScorer.score` as a function of the values read from
Redis: `bitActive` is the `BITFIELD GET u1 hour` reply (a list; the code
takes its first element, defaulting to 0), `rawCount` the tx counter
(absent key → 0), `hour` the current UTC hour.  Penalize +15 with
`UNUSUAL_HOUR_{h}H_NEVER_ACTIVE` only when the counter has reached the
calibration minimum 10 and the bit for the current hour is 0. -/
def timePatternScore (bitActive : List ℤ) (rawCount : Option ℤ) (hour : Nat) :
    TimePatternResult :=
  let bit_value := bitActive.headD 0
  let tx_count := rawCount.getD 0
  if 10 ≤ tx_count then
    if bit_value = 0 then
      { penalty := 15, reason_codes := ["UNUSUAL_HOUR_" ++ toString hour ++ "H_NEVER_ACTIVE"] }
    else {}
  else {}

/-! ### Rate-limit scorer (`app/services/rate_limit_scorer.py`) -/

/-- Table `_IP_THRESHOLDS`: (threshold, points, code), first match wins. -/
def ipThresholds : List (ℤ × ℤ × String) :=
  [(11, 45, "IP_RATE_EXTREME"), (7, 25, "IP_RATE_HIGH"), (4, 10, "IP_RATE_ELEVATED")]

/-- Table `_USER_THRESHOLDS`: (threshold, points, code), first match wins. -/
def userThresholds : List (ℤ × ℤ × String) :=
  [(20, 40, "USER_RATE_EXTREME"), (10, 20, "USER_RATE_HIGH"), (5, 8, "USER_RATE_ELEVATED")]

/-- First tier whose threshold the counter reaches (the `for ... break`
loop over a threshold table). -/
def tierPenalty (thresholds : List (ℤ × ℤ × String)) (count : ℤ) : ℤ × List String :=
  match thresholds.find? (fun t => decide (t.1 ≤ count)) with
  | some (_, pts, code) => (pts, [code])
  | none => (0, [])

/-- Model of `RateLimitScorer.score` as a function of the two post-`INCR` counter
values; `none` models the Redis error branch, which returns `(0, [])`
so the evaluation is never blocked by infrastructure.  The combined
penalty is capped at 60. -/
def rateLimitScore (ipCount userCount : Option ℤ) : ℤ × List String :=
  match ipCount, userCount with
  | some ic, some uc =>
    let ipPart := tierPenalty ipThresholds ic
    let userPart := tierPenalty userThresholds uc
    (min (ipPart.1 + userPart.1) 60, ipPart.2 ++ userPart.2)
  | _, _ => (0, [])

/-! ### GPS / IP mismatch detector (`app/services/gps_ip_mismatch.py`) -/

/-- One `_COUNTRY_BOXES` entry: country with its bounding box. -/
structure BBox where
  country : String
  latMin : ℚ
  latMax : ℚ
  lonMin : ℚ
  lonMax : ℚ

/-- Table `_COUNTRY_BOXES` in source (dict insertion) order. -/
def countryBoxes : List BBox :=
  [ ⟨"MX", 14.5, 32.7, -118.4, -86.7⟩, ⟨"US", 24.4, 49.4, -125.0, -66.9⟩
  , ⟨"CA", 41.7, 83.1, -141.0, -52.6⟩, ⟨"CO", -4.2, 13.4, -79.0, -66.8⟩
  , ⟨"AR", -55.1, -21.8, -73.6, -53.5⟩, ⟨"BR", -33.8, 5.3, -73.9, -34.8⟩
  , ⟨"CL", -56.0, -17.5, -75.6, -66.4⟩, ⟨"PE", -18.4, 0.0, -81.3, -68.7⟩
  , ⟨"VE", 0.7, 12.2, -73.4, -59.8⟩, ⟨"EC", -5.0, 1.4, -80.9, -75.2⟩
  , ⟨"BO", -22.9, -9.6, -69.6, -57.5⟩, ⟨"PY", -27.6, -19.3, -62.6, -54.3⟩
  , ⟨"UY", -34.9, -30.1, -58.4, -53.1⟩, ⟨"GT", 13.7, 18.0, -92.2, -88.2⟩
  , ⟨"HN", 12.9, 16.5, -89.4, -83.1⟩, ⟨"SV", 13.1, 14.5, -90.1, -87.7⟩
  , ⟨"NI", 10.7, 15.0, -87.6, -82.7⟩, ⟨"CR", 8.0, 11.2, -85.9, -82.6⟩
  , ⟨"PA", 7.2, 9.6, -83.0, -77.2⟩, ⟨"CU", 19.8, 23.3, -85.0, -74.1⟩
  , ⟨"DO", 17.5, 19.9, -72.0, -68.3⟩, ⟨"ES", 35.9, 43.8, -9.3, 4.3⟩
  , ⟨"DE", 47.3, 55.1, 5.8, 15.0⟩, ⟨"FR", 42.3, 51.1, -5.1, 9.6⟩
  , ⟨"GB", 49.9, 60.8, -8.6, 1.8⟩, ⟨"IT", 35.5, 47.1, 6.6, 18.5⟩
  , ⟨"RU", 41.1, 81.9, 19.6, 180.0⟩, ⟨"CN", 18.2, 53.6, 73.5, 134.8⟩
  , ⟨"JP", 24.0, 45.5, 122.9, 153.9⟩, ⟨"IN", 8.0, 37.1, 68.1, 97.4⟩
  , ⟨"AU", -43.6, -10.7, 113.3, 153.6⟩ ]

/-- Set `_HIGH_RISK_IP_COUNTRIES`. -/
def highRiskIpCountries : List String := ["RU", "CN", "KP", "IR", "NG", "GH", "CM"]

/-- Dataclass `GPSIPResult`. -/
structure GPSIPResult where
  penalty : ℤ := 0
  reason_codes : List String := []
deriving DecidableEq

/-- Model of `_country_from_coords`: first bounding box containing the point. -/
def countryFromCoords (lat lon : ℚ) : Option String :=
  (countryBoxes.find? (fun b =>
    decide (b.latMin ≤ lat) && decide (lat ≤ b.latMax) &&
    decide (b.lonMin ≤ lon) && decide (lon ≤ b.lonMax))).map (·.country)

/-- Model of `GPSIPMismatchDetector.check` (synchronous, pure). -/
def gpsIpMismatchCheck (latitude longitude : ℚ) (ip_country : String) : GPSIPResult :=
  match countryFromCoords latitude longitude with
  | none =>
    if highRiskIpCountries.contains ip_country then
      { penalty := 10, reason_codes := ["HIGH_RISK_IP_COUNTRY_" ++ ip_country] }
    else {}
  | some gps_country =>
    let mismatch : ℤ × List String :=
      if gps_country ≠ ip_country then
        (10, ["GPS_IP_COUNTRY_MISMATCH_" ++ gps_country ++ "_VS_" ++ ip_country])
      else (0, [])
    let highRisk : ℤ × List String :=
      if highRiskIpCountries.contains ip_country then
        (10, ["HIGH_RISK_IP_COUNTRY_" ++ ip_country])
      else (0, [])
    { penalty := mismatch.1 + highRisk.1, reason_codes := mismatch.2 ++ highRisk.2 }

/-! ### Detector result types consumed by the orchestrator -/

/-- Source `geo_analyzer.py` — the fields of `GeoAnalysisResult` that
`evaluate_transaction` reads (`score`, `reason_codes`,
`impossible_travel_detected`). -/
structure GeoAnalysisResult where
  score : ℚ
  reason_codes : List String := []
  impossible_travel_detected : Bool := false

/-- Source `behavior_engine.py` — the fields of the behavior result that the
orchestrator reads. -/
structure BehaviorAnalysisResult where
  score : ℚ
  reason_codes : List String := []

/-- Source `trust_score.py` — the field of `TrustProfile` the orchestrator
reads (`trust_reduction`, a non-positive int down to −25). -/
structure TrustProfile where
  trust_reduction : ℤ

/-- Source `ip_history.py` — `IPHistoryResult` dataclass. -/
structure IPHistoryResult where
  penalty : ℤ := 0
  reason_codes : List String := []
  override_block : Bool := false

/-- Source `card_testing_detector.py` — `CardTestingResult` dataclass. -/
structure CardTestingResult where
  penalty : ℤ := 0
  reason_codes : List String := []

/-- Source `p2p_analyzer.py` — `P2PAnalysisResult` dataclass. -/
structure P2PAnalysisResult where
  score : ℚ
  reason_codes : List String := []
  is_new_recipient_account : Bool := false
  smurfing_detected : Bool := false
  mule_pattern_detected : Bool := false
  should_hold_funds : Bool := false

/-- The fields of `TransactionPayload` (`app/domain/schemas.py`) that
`evaluate_transaction` itself reads.  Fields consumed only inside the
parallel detectors (user agent, device flags, …) enter the model through
`DetectorOutcomes` instead.  `ip_country` carries the GeoIP middleware
enrichment (`getattr(payload, "ip_country", "MX")`).
`form_fill_time_seconds` is a validated payload field; it is listed here
to state theorems about its (non-)use. -/
structure TransactionPayload where
  user_id : String
  device_id : String
  card_bin : String
  amount : ℚ
  currency : String
  ip_address : String
  latitude : ℚ
  longitude : ℚ
  transaction_type : String
  recipient_id : Option String := none
  session_id : String
  account_age_days : Option ℤ := none
  avg_monthly_amount : Option ℚ := none
  failed_tx_last_7_days : Option ℤ := none
  kyc_level : KycLevel := .nonekyc
  is_international_card : Bool := false
  form_fill_time_seconds : Option ℤ := none
  ip_country : String := "MX"
  bin_country : String := "MX"
  is_vpn : Bool := false

/-- The outcome of the `asyncio.gather` fan-out: one entry per task, in
the order of the `tasks` list.  `none` models a raised exception (mapped
by `_safe_float` to the module fallback and by `_safe_result` to `None`).
Note: in the source as written the task-list construction itself raises
TypeError at the time-pattern entry (`time_pattern_scorer.score` is
called with an `account_age_days` keyword it does not accept,
`fraud_orchestrator.py` lines 405-408) before `asyncio.gather` runs, so
for non-blacklisted payloads no real fan-out completes; quantifying over
this structure covers a strict superset of the real behaviors. -/
structure DetectorOutcomes where
  kyc_device : Option ℚ := none
  external_api : Option ℚ := none
  velocity : Option ℚ := none
  geo : Option GeoAnalysisResult := none
  behavior : Option BehaviorAnalysisResult := none
  trust : Option TrustProfile := none
  ip_history : Option IPHistoryResult := none
  session_guard : Option SessionGuardResult := none
  card_testing : Option CardTestingResult := none
  time_pattern : Option TimePatternResult := none
  p2p : Option P2PAnalysisResult := none

/-- Schema `FraudEvaluationResponse` (`app/domain/schemas.py`). -/
structure FraudEvaluationResponse where
  transaction_id : String
  action : ActionDecision
  risk_score : ℤ
  challenge_type : Option ChallengeType
  reason_codes : List String
  score_breakdown : List ScoreEntry
  user_message : String
  response_time_ms : ℤ
  signature : String

/-! ### The orchestrator (`FraudOrchestrator`) -/

/-- Weight `W1_VELOCITY = 0.25`. -/
def W1_VELOCITY : ℚ := 25 / 100

/-- Weight `W2_DEVICE = 0.20`. -/
def W2_DEVICE : ℚ := 20 / 100

/-- Weight `W3_GEO = 0.20`. -/
def W3_GEO : ℚ := 20 / 100

/-- Weight `W4_BEHAVIOR = 0.20`. -/
def W4_BEHAVIOR : ℚ := 20 / 100

/-- Weight `W5_EXTERNAL = 0.15`. -/
def W5_EXTERNAL : ℚ := 15 / 100

/-- The P2P task runs (and its result is consulted) only when
`transaction_type == "P2P_SEND"` and a recipient is present. -/
def p2pResultOf (p : TransactionPayload) (o : DetectorOutcomes) : Option P2PAnalysisResult :=
  if p.transaction_type = "P2P_SEND" ∧ p.recipient_id.isSome then o.p2p else none

/-- PASO 3: the weighted score `W1·V + W2·D + W3·G + W4·B + W5·E`, with
each failed module replaced by its fallback (velocity 20, device 30,
geo 20, behavior 10, external 15). -/
def weightedScore (o : DetectorOutcomes) : ℚ :=
  W1_VELOCITY * (o.velocity.getD 20) + W2_DEVICE * (o.kyc_device.getD 30) +
  W3_GEO * ((o.geo.map (·.score)).getD 20) +
  W4_BEHAVIOR * ((o.behavior.map (·.score)).getD 10) +
  W5_EXTERNAL * (o.external_api.getD 15)

/-- PASO 3 continued: add the P2P penalty (`0.30 × p2p.score`, only for a
P2P send with recipient) and the trust reduction, clamp to [0,100] and
truncate to int. -/
def baseScore (p : TransactionPayload) (o : DetectorOutcomes) : ℤ :=
  let p2p_penalty : ℚ :=
    match p2pResultOf p o with
    | some r => r.score * (30 / 100)
    | none => 0
  let trust_reduction : ℤ := (o.trust.map (·.trust_reduction)).getD 0
  clampFloor (weightedScore o + p2p_penalty + (trust_reduction : ℚ))

/-- Running (score, reason-code list) state threaded through the
sequential adjustment steps of `evaluate_transaction`. -/
structure ScoreAcc where
  score : ℤ
  codes : List String
deriving DecidableEq

/-- PASO 3b: additive payload-history penalties with their reason codes,
in source order. -/
def historyAdjust (p : TransactionPayload) : ℤ × List String :=
  let age : ℤ × List String :=
    match p.account_age_days with
    | some d => if d < 7 then (20, ["ACCOUNT_AGE_VERY_NEW"])
                else if d < 30 then (10, ["ACCOUNT_AGE_NEW"]) else (0, [])
    | none => (0, [])
  let amount : ℤ × List String :=
    match p.avg_monthly_amount with
    | some avg => if 0 < avg ∧ avg * 3 < p.amount then (20, ["AMOUNT_3X_ABOVE_AVERAGE"])
                  else (0, [])
    | none => (0, [])
  let failed : ℤ × List String :=
    match p.failed_tx_last_7_days with
    | some f => if 5 ≤ f then (25, ["HIGH_FAILED_TX_LAST_7D"])
                else if 3 ≤ f then (10, ["FAILED_TX_LAST_7D"]) else (0, [])
    | none => (0, [])
  let kyc : ℤ × List String :=
    if p.kyc_level = .nonekyc ∧ 500 < p.amount then (15, ["HIGH_AMOUNT_NO_KYC"]) else (0, [])
  let intl : ℤ × List String :=
    if p.is_international_card then (10, ["INTERNATIONAL_CARD"]) else (0, [])
  (age.1 + amount.1 + failed.1 + kyc.1 + intl.1,
   age.2 ++ amount.2 ++ failed.2 ++ kyc.2 ++ intl.2)

/-- PASO 3b: apply the history penalty (the clamp is unconditional in the
source). -/
def stageHistory (p : TransactionPayload) (a : ScoreAcc) : ScoreAcc :=
  let h := historyAdjust p
  ⟨clampI (a.score + h.1), a.codes ++ h.2⟩

/-- Rate-limit penalty: added (and codes recorded) only when positive. -/
def stageRate (rate : ℤ × List String) (a : ScoreAcc) : ScoreAcc :=
  if 0 < rate.1 then ⟨clampI (a.score + rate.1), a.codes ++ rate.2⟩ else a

/-- PASO 3c: GPS vs IP mismatch (synchronous detector call). -/
def stageGps (p : TransactionPayload) (a : ScoreAcc) : ScoreAcc :=
  let g := gpsIpMismatchCheck p.latitude p.longitude p.ip_country
  if 0 < g.penalty then ⟨clampI (a.score + g.penalty), a.codes ++ g.reason_codes⟩ else a

/-- PASO 3c: IP history — `override_block` forces the score to 100,
otherwise a positive penalty is added with clamp. -/
def stageIpHistory (r : Option IPHistoryResult) (a : ScoreAcc) : ScoreAcc :=
  match r with
  | none => a
  | some r =>
    if r.override_block then ⟨100, a.codes ++ r.reason_codes⟩
    else if 0 < r.penalty then ⟨clampI (a.score + r.penalty), a.codes ++ r.reason_codes⟩
    else a

/-- PASO 3c: session guard — same override/penalty shape. -/
def stageSession (r : Option SessionGuardResult) (a : ScoreAcc) : ScoreAcc :=
  match r with
  | none => a
  | some r =>
    if r.override_block then ⟨100, a.codes ++ r.reason_codes⟩
    else if 0 < r.penalty then ⟨clampI (a.score + r.penalty), a.codes ++ r.reason_codes⟩
    else a

/-- PASO 3c: card testing — positive penalty added with clamp. -/
def stageCardTesting (r : Option CardTestingResult) (a : ScoreAcc) : ScoreAcc :=
  match r with
  | none => a
  | some r =>
    if 0 < r.penalty then ⟨clampI (a.score + r.penalty), a.codes ++ r.reason_codes⟩ else a

/-- PASO 3c: time pattern — the raw penalty is added with clamp (no
weighting is applied at this step in the source). -/
def stageTimePattern (r : Option TimePatternResult) (a : ScoreAcc) : ScoreAcc :=
  match r with
  | none => a
  | some r =>
    if 0 < r.penalty then ⟨clampI (a.score + r.penalty), a.codes ++ r.reason_codes⟩ else a

/-- PASO 4: informational reason codes from the module scores (device
tier, velocity tier, geo / behavior / p2p codes, trust reduction). -/
def stageSignalCodes (p : TransactionPayload) (o : DetectorOutcomes) (a : ScoreAcc) : ScoreAcc :=
  let device_score := o.kyc_device.getD 30
  let velocity_score := o.velocity.getD 20
  let deviceCodes :=
    if 80 ≤ device_score then ["EMULATOR_OR_ROOT_DETECTED"]
    else if 60 ≤ device_score then ["SUSPICIOUS_DEVICE_FINGERPRINT"] else []
  let velCodes := if 40 ≤ velocity_score then ["HIGH_VELOCITY_OR_LIMIT_EXCEEDED"] else []
  let geoCodes := (o.geo.map (·.reason_codes)).getD []
  let behaviorCodes := (o.behavior.map (·.reason_codes)).getD []
  let p2pCodes := ((p2pResultOf p o).map (·.reason_codes)).getD []
  let trustCodes :=
    match o.trust with
    | some t => if t.trust_reduction < -10 then
        ["TRUST_REDUCTION_" ++ toString t.trust_reduction.natAbs ++ "PTS"] else []
    | none => []
  ⟨a.score, a.codes ++ deviceCodes ++ velCodes ++ geoCodes ++ behaviorCodes ++ p2pCodes ++ trustCodes⟩

/-- PASO 5: overrides.  Impossible travel raises the score to at least
76, a confirmed mule pattern to at least 91; each only ever raises. -/
def stageOverrides (geo : Option GeoAnalysisResult) (p2p : Option P2PAnalysisResult)
    (a : ScoreAcc) : ScoreAcc :=
  let a1 :=
    match geo with
    | some g => if g.impossible_travel_detected then
        ⟨max a.score 76, a.codes ++ ["OVERRIDE_IMPOSSIBLE_TRAVEL"]⟩ else a
    | none => a
  match p2p with
  | some q => if q.mule_pattern_detected then
      ⟨max a1.score 91, a1.codes ++ ["OVERRIDE_MULE_PATTERN_CONFIRMED"]⟩ else a1
  | none => a1

/-- PASO 6 — `_determine_action`: the score table, with the P2P
preventive-hold override promoting a low-score APPROVE to
CHALLENGE_HARD / 3DS. -/
def determineAction (score : ℤ) (p2p : Option P2PAnalysisResult) :
    ActionDecision × Option ChallengeType × String :=
  if ((p2p.map (·.should_hold_funds)).getD false) ∧ score ≤ 30 then
    (.challenge_hard, some .threeds, "Tu transferencia está siendo verificada por seguridad.")
  else if score ≤ 30 then
    (.approve, none, "Transacción aprobada.")
  else if score ≤ 60 then
    (.challenge_soft, some .sms_otp, "Por tu seguridad, necesitamos verificar tu identidad.")
  else if score ≤ 75 then
    (.challenge_hard, some .threeds, "Se requiere verificación adicional para continuar.")
  else if score ≤ 90 then
    (.block_review, none, "Tu transacción está siendo revisada. Te notificaremos pronto.")
  else
    (.block_perm, none, "Operación declinada por políticas de seguridad.")

/-- PASO 7 — `_build_response`: de-duplicate reason codes, build the
breakdown, serialize `(transaction_id, action, risk_score)` sorted with
minimal separators, and sign with HMAC-SHA256 under the process secret. -/
def buildResponse (txid : String) (action : ActionDecision) (risk_score : ℤ)
    (challenge : Option ChallengeType) (reason_codes : List String)
    (user_message : String) (processing_ms : ℤ) (secret : List Nat) :
    FraudEvaluationResponse :=
  let deduped := pyDedup reason_codes
  { transaction_id := txid
  , action := action
  , risk_score := risk_score
  , challenge_type := challenge
  , reason_codes := deduped
  , score_breakdown := buildBreakdown deduped
  , user_message := user_message
  , response_time_ms := processing_ms
  , signature := hmacSha256Hex secret
      (utf8Bytes (signablePayload txid (actionValue action) risk_score)) }

/-- The post-blacklist part of `evaluate_transaction`: weighted
aggregation, sequential adjustments and overrides, decision, response.
This models the pipeline as completing; in the source as written the
time-pattern call-signature defect (see `kwargsBind` below) raises
TypeError while the task list is built, so this path never returns in
the unmodified program and only the blacklist short-circuit produces a
real `FraudEvaluationResponse`. -/
def evaluateMain (p : TransactionPayload) (rate : ℤ × List String)
    (o : DetectorOutcomes) (txid : String) (ms : ℤ) (secret : List Nat) :
    FraudEvaluationResponse :=
  let p2p_result := p2pResultOf p o
  let a0 : ScoreAcc := ⟨baseScore p o, []⟩
  let a1 := stageHistory p a0
  let a2 := stageRate rate a1
  let a3 := stageGps p a2
  let a4 := stageIpHistory o.ip_history a3
  let a5 := stageSession o.session_guard a4
  let a6 := stageCardTesting o.card_testing a5
  let a7 := stageTimePattern o.time_pattern a6
  let a8 := stageSignalCodes p o a7
  let a9 := stageOverrides o.geo p2p_result a8
  let decision := determineAction a9.score p2p_result
  buildResponse txid decision.1 a9.score decision.2.1 a9.codes decision.2.2 ms secret

/-- Model of `FraudOrchestrator.evaluate_transaction`, parameterized over the
blacklist cache view, the rate-limit outcome, the detector outcomes, the
freshly minted transaction id, the measured processing time and the HMAC
secret.  A blacklist hit short-circuits to a signed BLOCK_PERM / 100
response before any detector runs. -/
def evaluateTransaction (p : TransactionPayload) (blCache : Option BlacklistCache)
    (rate : ℤ × List String) (o : DetectorOutcomes) (txid : String) (ms : ℤ)
    (secret : List Nat) : FraudEvaluationResponse :=
  let bl := blacklistCheck blCache p.user_id p.device_id p.ip_address p.card_bin
  if bl.hit then
    buildResponse txid .block_perm 100 none
      ["BLACKLIST_" ++ ((bl.blacklist_type.map (fun t => (blacklistTypeValue t).toUpper)).getD ("")) ++ "_HIT"]
      "Operación declinada por políticas de seguridad." ms secret
  else
    evaluateMain p rate o txid ms secret

/-! ### Auxiliary definitions for the stated properties -/

/-- Whether the 4-tuple `(score, codes)` accumulator is in score range. -/
def InRange (a : ScoreAcc) : Prop := 0 ≤ a.score ∧ a.score ≤ 100

/-- Sum of the points of the breakdown entries with non-zero points (the
quantity the spec asserts equals `final_score − neutral_baseline`). -/
def nonzeroPointsSum (es : List ScoreEntry) : ℤ :=
  ((es.filter (fun e => decide (e.points ≠ 0))).map (·.points)).sum

/-- Whether the P2P result in force requests the preventive hold (the
guard of the `_determine_action` override). -/
def p2pHold (r : Option P2PAnalysisResult) : Bool :=
  (r.map (·.should_hold_funds)).getD false

/-- A neutral concrete payload used by the concrete evaluations below:
Mexican coordinates and IP country, no optional history fields, a
non-P2P transaction. -/
def neutralPayload : TransactionPayload :=
  { user_id := "U1", device_id := "D1", card_bin := "411111", amount := 100,
    currency := "MXN", ip_address := "187.190.1.1", latitude := 19.43,
    longitude := -99.13, transaction_type := "TOP_UP", session_id := "S1" }

/-- Detector outcomes where every module raised (all fallbacks):
weighted score `0.25·20 + 0.20·30 + 0.20·20 + 0.20·10 + 0.15·15 = 19.25`. -/
def allFailedOutcomes : DetectorOutcomes := {}

/-- Outcomes where the geo module scored 40 with impossible travel
detected and every other module raised (used by the C4 witness). -/
def geoOverrideOutcomes : DetectorOutcomes :=
  { geo := some { score := 40, reason_codes := ["IMPOSSIBLE_TRAVEL_DETECTED"],
                  impossible_travel_detected := true } }

/-- A blacklist cache holding exactly one entry: device `D-EVIL`,
reason `confirmed_fraud`. -/
def evilDeviceCache : BlacklistCache :=
  fun k => if k = "blacklist:device:D-EVIL" then some ("confirmed_fraud") else none

/-- The neutral payload issued from the blacklisted device. -/
def evilDevicePayload : TransactionPayload := { neutralPayload with device_id := "D-EVIL" }

/-- An empty session store (no session key claimed yet). -/
def emptySessionStore : SessionStore := fun _ => none

/-- A blacklist cache holding exactly one entry: BIN `999999`, reason
`stolen_bin_range`. -/
def binOnlyCache : BlacklistCache :=
  fun k => if k = "blacklist:bin:999999" then some ("stolen_bin_range") else none

/-- The neutral payload paying with the blacklisted BIN. -/
def binHitPayload : TransactionPayload := { neutralPayload with card_bin := "999999" }

/-- Parameter names that `TimePatternScorer.score` accepts besides
`self` (`time_pattern_scorer.py` lines 48-51); the method declares no
catch-all keyword parameter. -/
def timePatternScoreParams : List String := ["user_id"]

/-- Keyword-argument names the orchestrator passes to
`time_pattern_scorer.score` when building the task list
(`fraud_orchestrator.py` lines 405-408). -/
def timePatternCallKwargs : List String := ["user_id", "account_age_days"]

/-- Python argument binding for a keywords-only call to a function with
no catch-all keyword parameter: the call binds exactly when every
keyword names a declared parameter; otherwise the call raises TypeError
at call time, before any coroutine is created — for a call inside a
list literal, before `asyncio.gather` is ever reached. -/
def kwargsBind (params kwargs : List String) : Bool :=
  kwargs.all (fun k => params.contains k)

/-! ### Helper lemmas -/

theorem clampI_nonneg (n : ℤ) : 0 ≤ clampI n := le_max_left 0 _

theorem clampI_le_100 (n : ℤ) : clampI n ≤ 100 :=
  max_le (by norm_num) (min_le_left _ _)

theorem clampFloor_nonneg (x : ℚ) : 0 ≤ clampFloor x := by
  have h : (0 : ℚ) ≤ clampQ x := le_max_left 0 _
  exact Int.le_floor.mpr (by exact_mod_cast h)

theorem clampFloor_le_100 (x : ℚ) : clampFloor x ≤ 100 := by
  have h : clampQ x ≤ (100 : ℚ) := max_le (by norm_num) (min_le_left _ _)
  calc ⌊clampQ x⌋ ≤ ⌊(100 : ℚ)⌋ := Int.floor_le_floor h
    _ = 100 := by norm_num

theorem baseScore_range (p : TransactionPayload) (o : DetectorOutcomes) :
    0 ≤ baseScore p o ∧ baseScore p o ≤ 100 :=
  ⟨clampFloor_nonneg _, clampFloor_le_100 _⟩

theorem stageHistory_range (p : TransactionPayload) (a : ScoreAcc) :
    InRange (stageHistory p a) :=
  ⟨clampI_nonneg _, clampI_le_100 _⟩

theorem stageRate_range (r : ℤ × List String) (a : ScoreAcc) (h : InRange a) :
    InRange (stageRate r a) := by
  unfold stageRate
  split
  · exact ⟨clampI_nonneg _, clampI_le_100 _⟩
  · exact h

theorem stageGps_range (p : TransactionPayload) (a : ScoreAcc) (h : InRange a) :
    InRange (stageGps p a) := by
  unfold stageGps
  dsimp only
  split
  · exact ⟨clampI_nonneg _, clampI_le_100 _⟩
  · exact h

theorem stageIpHistory_range (r : Option IPHistoryResult) (a : ScoreAcc) (h : InRange a) :
    InRange (stageIpHistory r a) := by
  unfold stageIpHistory
  match r with
  | none => exact h
  | some r =>
    dsimp only
    split
    · exact ⟨by norm_num, by norm_num⟩
    · split
      · exact ⟨clampI_nonneg _, clampI_le_100 _⟩
      · exact h

theorem stageSession_range (r : Option SessionGuardResult) (a : ScoreAcc) (h : InRange a) :
    InRange (stageSession r a) := by
  unfold stageSession
  match r with
  | none => exact h
  | some r =>
    dsimp only
    split
    · exact ⟨by norm_num, by norm_num⟩
    · split
      · exact ⟨clampI_nonneg _, clampI_le_100 _⟩
      · exact h

theorem stageCardTesting_range (r : Option CardTestingResult) (a : ScoreAcc) (h : InRange a) :
    InRange (stageCardTesting r a) := by
  unfold stageCardTesting
  match r with
  | none => exact h
  | some r =>
    dsimp only
    split
    · exact ⟨clampI_nonneg _, clampI_le_100 _⟩
    · exact h

theorem stageTimePattern_range (r : Option TimePatternResult) (a : ScoreAcc) (h : InRange a) :
    InRange (stageTimePattern r a) := by
  unfold stageTimePattern
  match r with
  | none => exact h
  | some r =>
    dsimp only
    split
    · exact ⟨clampI_nonneg _, clampI_le_100 _⟩
    · exact h

theorem stageSignalCodes_range (p : TransactionPayload) (o : DetectorOutcomes)
    (a : ScoreAcc) (h : InRange a) : InRange (stageSignalCodes p o a) := h

theorem stageOverrides_range (g : Option GeoAnalysisResult) (q : Option P2PAnalysisResult)
    (a : ScoreAcc) (h : InRange a) : InRange (stageOverrides g q a) := by
  unfold stageOverrides
  have h1 : InRange (match g with
      | some gr => if gr.impossible_travel_detected then
          (⟨max a.score 76, a.codes ++ ["OVERRIDE_IMPOSSIBLE_TRAVEL"]⟩ : ScoreAcc) else a
      | none => a) := by
    match g with
    | none => exact h
    | some gr =>
      dsimp only
      split
      · exact ⟨le_trans h.1 (le_max_left _ _), max_le h.2 (by norm_num)⟩
      · exact h
  match q with
  | none => exact h1
  | some qr =>
    dsimp only
    split
    · exact ⟨le_trans h1.1 (le_max_left _ _), max_le h1.2 (by norm_num)⟩
    · exact h1

/-- The score is only ever raised by the override stage. -/
theorem stageOverrides_mono (g : Option GeoAnalysisResult) (q : Option P2PAnalysisResult)
    (a : ScoreAcc) : a.score ≤ (stageOverrides g q a).score := by
  unfold stageOverrides
  have h1 : a.score ≤ (match g with
      | some gr => if gr.impossible_travel_detected then
          (⟨max a.score 76, a.codes ++ ["OVERRIDE_IMPOSSIBLE_TRAVEL"]⟩ : ScoreAcc) else a
      | none => a).score := by
    match g with
    | none => exact le_refl _
    | some gr =>
      dsimp only
      split
      · exact le_max_left _ _
      · exact le_refl _
  match q with
  | none => exact h1
  | some qr =>
    dsimp only
    split
    · exact le_trans h1 (le_max_left _ _)
    · exact h1

theorem perm_insertBy {α : Type} (le : α → α → Bool) (e : α) :
    ∀ l : List α, List.Perm (insertBy le e l) (e :: l)
  | [] => List.Perm.refl _
  | x :: xs => by
    simp only [insertBy]
    split
    · exact List.Perm.refl _
    · exact ((perm_insertBy le e xs).cons x).trans (List.Perm.swap e x xs)

theorem sortBy_perm {α : Type} (le : α → α → Bool) (l : List α) :
    List.Perm (sortBy le l) l := by
  induction l with
  | nil => exact List.Perm.refl _
  | cons x xs ih =>
    simp only [sortBy, List.foldr] at *
    exact (perm_insertBy le x _).trans (ih.cons x)

theorem mem_insertBy {α : Type} (le : α → α → Bool) (e y : α) (l : List α) :
    y ∈ insertBy le e l ↔ y = e ∨ y ∈ l := by
  rw [(perm_insertBy le e l).mem_iff]
  simp [List.mem_cons]

theorem pairwise_insertBy {α : Type} {le : α → α → Bool}
    (htot : ∀ a b, le a b = true ∨ le b a = true)
    (htrans : ∀ a b c, le a b = true → le b c = true → le a c = true) (e : α) :
    ∀ {l : List α}, l.Pairwise (fun a b => le a b = true) →
      (insertBy le e l).Pairwise (fun a b => le a b = true) := by
  intro l
  induction l with
  | nil => intro _; simp [insertBy]
  | cons x xs ih =>
    intro h
    rw [List.pairwise_cons] at h
    simp only [insertBy]
    split
    · rename_i hle
      rw [List.pairwise_cons]
      refine ⟨fun y hy => ?_, List.pairwise_cons.mpr h⟩
      rcases List.mem_cons.mp hy with rfl | hy
      · exact hle
      · exact htrans e x y hle (h.1 y hy)
    · rename_i hnle
      rw [List.pairwise_cons]
      refine ⟨fun y hy => ?_, ih h.2⟩
      rcases (mem_insertBy le e y xs).mp hy with rfl | hy
      · rcases htot y x with hx | hx
        · exact absurd hx hnle
        · exact hx
      · exact h.1 y hy

theorem sortBy_pairwise {α : Type} (le : α → α → Bool)
    (htot : ∀ a b, le a b = true ∨ le b a = true)
    (htrans : ∀ a b c, le a b = true → le b c = true → le a c = true) (l : List α) :
    (sortBy le l).Pairwise (fun a b => le a b = true) := by
  induction l with
  | nil => simp [sortBy]
  | cons x xs ih => exact pairwise_insertBy htot htrans x ih

theorem mem_pyDedupAux (c : String) :
    ∀ (l seen : List String), c ∈ pyDedupAux seen l ↔ c ∈ l ∧ c ∉ seen := by
  intro l
  induction l with
  | nil => simp [pyDedupAux]
  | cons x xs ih =>
    intro seen
    simp only [pyDedupAux]
    split
    · rename_i hx
      rw [ih seen]
      constructor
      · rintro ⟨h1, h2⟩; exact ⟨List.mem_cons_of_mem x h1, h2⟩
      · rintro ⟨h1, h2⟩
        rcases List.mem_cons.mp h1 with rfl | h1
        · exact absurd hx h2
        · exact ⟨h1, h2⟩
    · rename_i hx
      constructor
      · intro h
        rcases List.mem_cons.mp h with rfl | h
        · exact ⟨List.mem_cons_self _ _, hx⟩
        · rcases (ih (x :: seen)).mp h with ⟨h1, h2⟩
          exact ⟨List.mem_cons_of_mem x h1, fun hc => h2 (List.mem_cons_of_mem x hc)⟩
      · rintro ⟨h1, h2⟩
        rcases List.mem_cons.mp h1 with rfl | h1
        · exact List.mem_cons_self _ _
        · by_cases hcx : c = x
          · subst hcx; exact List.mem_cons_self _ _
          · exact List.mem_cons_of_mem x ((ih (x :: seen)).mpr
              ⟨h1, by simp [List.mem_cons, hcx, h2]⟩)

theorem mem_pyDedup (c : String) (l : List String) : c ∈ pyDedup l ↔ c ∈ l := by
  simp [pyDedup, mem_pyDedupAux]

theorem nodup_pyDedupAux : ∀ (l seen : List String), (pyDedupAux seen l).Nodup := by
  intro l
  induction l with
  | nil => intro seen; simp [pyDedupAux]
  | cons x xs ih =>
    intro seen
    simp only [pyDedupAux]
    split
    · exact ih seen
    · refine List.nodup_cons.mpr ⟨fun hc => ?_, ih (x :: seen)⟩
      exact ((mem_pyDedupAux x xs (x :: seen)).mp hc).2 (List.mem_cons_self _ _)

theorem nodup_pyDedup (l : List String) : (pyDedup l).Nodup := nodup_pyDedupAux l []

theorem catalogEntry_code (c : String) : (catalogEntry c).code = c := by
  unfold catalogEntry
  split
  · rfl
  · split <;> rfl

theorem evaluateMain_risk_range (p : TransactionPayload) (rate : ℤ × List String)
    (o : DetectorOutcomes) (txid : String) (ms : ℤ) (secret : List Nat) :
    0 ≤ (evaluateMain p rate o txid ms secret).risk_score ∧
    (evaluateMain p rate o txid ms secret).risk_score ≤ 100 := by
  have h : InRange (stageOverrides o.geo (p2pResultOf p o)
      (stageSignalCodes p o (stageTimePattern o.time_pattern (stageCardTesting o.card_testing
      (stageSession o.session_guard (stageIpHistory o.ip_history (stageGps p
      (stageRate rate (stageHistory p ⟨baseScore p o, []⟩))))))))) :=
    stageOverrides_range _ _ _ (stageSignalCodes_range _ _ _ (stageTimePattern_range _ _
      (stageCardTesting_range _ _ (stageSession_range _ _ (stageIpHistory_range _ _
      (stageGps_range _ _ (stageRate_range _ _ (stageHistory_range _ _))))))))
  exact h

theorem buildResponse_risk_score (txid : String) (ad : ActionDecision) (s : ℤ)
    (ch : Option ChallengeType) (rc : List String) (msg : String) (ms : ℤ)
    (secret : List Nat) : (buildResponse txid ad s ch rc msg ms secret).risk_score = s := rfl

theorem buildResponse_action (txid : String) (ad : ActionDecision) (s : ℤ)
    (ch : Option ChallengeType) (rc : List String) (msg : String) (ms : ℤ)
    (secret : List Nat) : (buildResponse txid ad s ch rc msg ms secret).action = ad := rfl

theorem buildResponse_reason_codes (txid : String) (ad : ActionDecision) (s : ℤ)
    (ch : Option ChallengeType) (rc : List String) (msg : String) (ms : ℤ)
    (secret : List Nat) :
    (buildResponse txid ad s ch rc msg ms secret).reason_codes = pyDedup rc := rfl

theorem buildResponse_transaction_id (txid : String) (ad : ActionDecision) (s : ℤ)
    (ch : Option ChallengeType) (rc : List String) (msg : String) (ms : ℤ)
    (secret : List Nat) :
    (buildResponse txid ad s ch rc msg ms secret).transaction_id = txid := rfl

theorem buildResponse_breakdown (txid : String) (ad : ActionDecision) (s : ℤ)
    (ch : Option ChallengeType) (rc : List String) (msg : String) (ms : ℤ)
    (secret : List Nat) :
    (buildResponse txid ad s ch rc msg ms secret).score_breakdown =
      buildBreakdown (pyDedup rc) := rfl

/-- C1: for every evaluated transaction request — any payload, blacklist
cache view, rate-limit outcome, detector outcomes (including the
ip-history and session-hijack overrides that set exactly 100 and the two
score-floor overrides of 76 and 91) — the `risk_score` of the returned
evaluation is an integer between 0 and 100 inclusive: every additive
step clamps to [0,100]. -/
theorem risk_score_in_range (p : TransactionPayload) (blCache : Option BlacklistCache)
    (rate : ℤ × List String) (o : DetectorOutcomes) (txid : String) (ms : ℤ)
    (secret : List Nat) :
    0 ≤ (evaluateTransaction p blCache rate o txid ms secret).risk_score ∧
    (evaluateTransaction p blCache rate o txid ms secret).risk_score ≤ 100 := by
  unfold evaluateTransaction
  dsimp only
  split
  · rw [buildResponse_risk_score]
    exact ⟨by norm_num, by norm_num⟩
  · exact evaluateMain_risk_range p rate o txid ms secret

theorem eval_with_hit (p : TransactionPayload) (blCache : Option BlacklistCache)
    (rate : ℤ × List String) (o : DetectorOutcomes) (txid : String) (ms : ℤ)
    (secret : List Nat) (t : BlacklistType) (r : String)
    (h : blacklistCheck blCache p.user_id p.device_id p.ip_address p.card_bin =
      { hit := true, blacklist_type := some t, reason := some r, added_by := some ("system") }) :
    evaluateTransaction p blCache rate o txid ms secret =
      buildResponse txid .block_perm 100 none
        ["BLACKLIST_" ++ (blacklistTypeValue t).toUpper ++ "_HIT"]
        "Operación declinada por políticas de seguridad." ms secret := by
  simp only [evaluateTransaction, h]
  rfl

theorem blacklistCheck_hit_user (get : BlacklistCache) (uid did ip bin r : String)
    (h1 : get (blacklistKey .user uid) = some r) :
    blacklistCheck (some get) uid did ip bin =
      { hit := true, blacklist_type := some .user, reason := some r,
        added_by := some ("system") } := by
  simp [blacklistCheck, List.findSome?, h1]

theorem blacklistCheck_hit_device (get : BlacklistCache) (uid did ip bin r : String)
    (h1 : get (blacklistKey .user uid) = none)
    (h2 : get (blacklistKey .device did) = some r) :
    blacklistCheck (some get) uid did ip bin =
      { hit := true, blacklist_type := some .device, reason := some r,
        added_by := some ("system") } := by
  simp [blacklistCheck, List.findSome?, h1, h2]

theorem blacklistCheck_hit_ip (get : BlacklistCache) (uid did ip bin r : String)
    (h1 : get (blacklistKey .user uid) = none)
    (h2 : get (blacklistKey .device did) = none)
    (h3 : get (blacklistKey .ip ip) = some r) :
    blacklistCheck (some get) uid did ip bin =
      { hit := true, blacklist_type := some .ip, reason := some r,
        added_by := some ("system") } := by
  simp [blacklistCheck, List.findSome?, h1, h2, h3]

theorem blacklistCheck_hit_bin (get : BlacklistCache) (uid did ip bin r : String)
    (h1 : get (blacklistKey .user uid) = none)
    (h2 : get (blacklistKey .device did) = none)
    (h3 : get (blacklistKey .ip ip) = none)
    (h4 : get (blacklistKey .bin bin) = some r) :
    blacklistCheck (some get) uid did ip bin =
      { hit := true, blacklist_type := some .bin, reason := some r,
        added_by := some ("system") } := by
  simp [blacklistCheck, List.findSome?, h1, h2, h3, h4]

/-- C2: if any of the four entities (user, device, ip, card BIN) has a
blacklist entry in the cache, `evaluate_transaction` returns action
BLOCK_PERM with risk score exactly 100 and the single reason code
`BLACKLIST_{TYPE}_HIT`, and the response does not depend on the detector
outcomes or the rate-limit result (no detector runs); if the blacklist
cache read itself errors, the check reports a miss (fail-open) and the
evaluation proceeds as the normal post-blacklist pipeline. -/
theorem blacklist_short_circuit :
    (∀ (p : TransactionPayload) (get : BlacklistCache) (rate : ℤ × List String)
       (o : DetectorOutcomes) (txid : String) (ms : ℤ) (secret : List Nat),
      (get (blacklistKey .user p.user_id) ≠ none ∨
       get (blacklistKey .device p.device_id) ≠ none ∨
       get (blacklistKey .ip p.ip_address) ≠ none ∨
       get (blacklistKey .bin p.card_bin) ≠ none) →
      ∃ t : BlacklistType,
        (evaluateTransaction p (some get) rate o txid ms secret).action = .block_perm ∧
        (evaluateTransaction p (some get) rate o txid ms secret).risk_score = 100 ∧
        (evaluateTransaction p (some get) rate o txid ms secret).reason_codes =
          ["BLACKLIST_" ++ (blacklistTypeValue t).toUpper ++ "_HIT"] ∧
        (∀ (rate2 : ℤ × List String) (o2 : DetectorOutcomes),
          evaluateTransaction p (some get) rate2 o2 txid ms secret =
          evaluateTransaction p (some get) rate o txid ms secret)) ∧
    (∀ uid did ip bin : String,
      blacklistCheck none uid did ip bin = { hit := false }) ∧
    (∀ (p : TransactionPayload) (rate : ℤ × List String) (o : DetectorOutcomes)
       (txid : String) (ms : ℤ) (secret : List Nat),
      evaluateTransaction p none rate o txid ms secret = evaluateMain p rate o txid ms secret) := by
  refine ⟨?_, fun uid did ip bin => rfl, fun p rate o txid ms secret => rfl⟩
  intro p get rate o txid ms secret hdisj
  have main : ∀ t r,
      blacklistCheck (some get) p.user_id p.device_id p.ip_address p.card_bin =
        { hit := true, blacklist_type := some t, reason := some r,
          added_by := some ("system") } →
      ∃ t : BlacklistType,
        (evaluateTransaction p (some get) rate o txid ms secret).action = .block_perm ∧
        (evaluateTransaction p (some get) rate o txid ms secret).risk_score = 100 ∧
        (evaluateTransaction p (some get) rate o txid ms secret).reason_codes =
          ["BLACKLIST_" ++ (blacklistTypeValue t).toUpper ++ "_HIT"] ∧
        (∀ (rate2 : ℤ × List String) (o2 : DetectorOutcomes),
          evaluateTransaction p (some get) rate2 o2 txid ms secret =
          evaluateTransaction p (some get) rate o txid ms secret) := by
    intro t r h
    refine ⟨t, ?_, ?_, ?_, ?_⟩
    · rw [eval_with_hit p (some get) rate o txid ms secret t r h, buildResponse_action]
    · rw [eval_with_hit p (some get) rate o txid ms secret t r h, buildResponse_risk_score]
    · rw [eval_with_hit p (some get) rate o txid ms secret t r h, buildResponse_reason_codes]
      rfl
    · intro rate2 o2
      rw [eval_with_hit p (some get) rate2 o2 txid ms secret t r h,
          eval_with_hit p (some get) rate o txid ms secret t r h]
  rcases h1 : get (blacklistKey .user p.user_id) with _ | r1
  case some => exact main .user r1 (blacklistCheck_hit_user get _ _ _ _ r1 h1)
  rcases h2 : get (blacklistKey .device p.device_id) with _ | r2
  case some => exact main .device r2 (blacklistCheck_hit_device get _ _ _ _ r2 h1 h2)
  rcases h3 : get (blacklistKey .ip p.ip_address) with _ | r3
  case some => exact main .ip r3 (blacklistCheck_hit_ip get _ _ _ _ r3 h1 h2 h3)
  rcases h4 : get (blacklistKey .bin p.card_bin) with _ | r4
  case some => exact main .bin r4 (blacklistCheck_hit_bin get _ _ _ _ r4 h1 h2 h3 h4)
  simp [h1, h2, h3, h4] at hdisj

/-- Witness for C2 at the concrete blacklisted device `D-EVIL`. -/
theorem blacklist_short_circuit_witness :
    (evilDeviceCache (blacklistKey .user evilDevicePayload.user_id) ≠ none ∨
     evilDeviceCache (blacklistKey .device evilDevicePayload.device_id) ≠ none ∨
     evilDeviceCache (blacklistKey .ip evilDevicePayload.ip_address) ≠ none ∨
     evilDeviceCache (blacklistKey .bin evilDevicePayload.card_bin) ≠ none) ∧
    (∃ t : BlacklistType,
      (evaluateTransaction evilDevicePayload (some evilDeviceCache) (0, []) allFailedOutcomes
        ("tx-c2") 5 []).action = .block_perm ∧
      (evaluateTransaction evilDevicePayload (some evilDeviceCache) (0, []) allFailedOutcomes
        ("tx-c2") 5 []).risk_score = 100 ∧
      (evaluateTransaction evilDevicePayload (some evilDeviceCache) (0, []) allFailedOutcomes
        ("tx-c2") 5 []).reason_codes =
        ["BLACKLIST_" ++ (blacklistTypeValue t).toUpper ++ "_HIT"] ∧
      (∀ (rate2 : ℤ × List String) (o2 : DetectorOutcomes),
        evaluateTransaction evilDevicePayload (some evilDeviceCache) rate2 o2 ("tx-c2") 5 [] =
        evaluateTransaction evilDevicePayload (some evilDeviceCache) (0, []) allFailedOutcomes
          ("tx-c2") 5 [])) :=
  ⟨by decide,
   blacklist_short_circuit.1 evilDevicePayload evilDeviceCache (0, []) allFailedOutcomes
     ("tx-c2") 5 [] (by decide)⟩

/-- C3: for every final score in [0,100], `_determine_action` returns
exactly the action/challenge of the table — 0-30 APPROVE with no
challenge, 31-60 CHALLENGE_SOFT with SMS_OTP, 61-75 CHALLENGE_HARD with
3DS, 76-90 BLOCK_REVIEW, 91-100 BLOCK_PERM — except that a P2P result
requesting a preventive hold with score at most 30 yields CHALLENGE_HARD
with 3DS instead of APPROVE; the rows from 31 up hold for every P2P
result, hold requested or not.  The mapping is a total Lean function,
and it is monotone whenever the preventive-hold override does not fire
at the lower score (a lower score never yields a more restrictive
action). -/
theorem decision_mapping_table :
    (∀ (s : ℤ) (r : Option P2PAnalysisResult), 0 ≤ s → s ≤ 100 →
      ((p2pHold r = true → s ≤ 30 →
        (determineAction s r).1 = .challenge_hard ∧
        (determineAction s r).2.1 = some .threeds) ∧
       (p2pHold r = false → s ≤ 30 →
        (determineAction s r).1 = .approve ∧ (determineAction s r).2.1 = none) ∧
       (31 ≤ s → s ≤ 60 →
        (determineAction s r).1 = .challenge_soft ∧
        (determineAction s r).2.1 = some .sms_otp) ∧
       (61 ≤ s → s ≤ 75 →
        (determineAction s r).1 = .challenge_hard ∧
        (determineAction s r).2.1 = some .threeds) ∧
       (76 ≤ s → s ≤ 90 →
        (determineAction s r).1 = .block_review ∧ (determineAction s r).2.1 = none) ∧
       (91 ≤ s →
        (determineAction s r).1 = .block_perm ∧ (determineAction s r).2.1 = none))) ∧
    (∀ (s1 s2 : ℤ) (r : Option P2PAnalysisResult),
      ¬(p2pHold r = true ∧ s1 ≤ 30) → s1 < s2 →
      actionRank (determineAction s1 r).1 ≤ actionRank (determineAction s2 r).1) := by
  constructor
  · intro s r h0 h100
    refine ⟨?_, ?_, ?_, ?_, ?_, ?_⟩
    · intro hhold h30
      unfold determineAction
      rw [if_pos ⟨by simpa [p2pHold] using hhold, h30⟩]
      exact ⟨rfl, rfl⟩
    · intro hhold h30
      have hnot : ¬(((r.map (·.should_hold_funds)).getD false) = true ∧ s ≤ 30) := by
        simp only [p2pHold] at hhold
        simp [hhold]
      unfold determineAction
      rw [if_neg hnot]
      rw [if_pos h30]
      exact ⟨rfl, rfl⟩
    all_goals
      intros
      have hnot : ¬(((r.map (·.should_hold_funds)).getD false) = true ∧ s ≤ 30) := by
        rintro ⟨_, h30⟩
        omega
      unfold determineAction
      rw [if_neg hnot]
      split_ifs <;> simp_all <;> omega
  · intro s1 s2 r hno hlt
    simp only [p2pHold] at hno
    have hnot1 : ¬(((r.map (·.should_hold_funds)).getD false) = true ∧ s1 ≤ 30) := hno
    have hnot2 : ¬(((r.map (·.should_hold_funds)).getD false) = true ∧ s2 ≤ 30) := by
      rintro ⟨hh, h2⟩
      exact hno ⟨hh, by omega⟩
    unfold determineAction
    rw [if_neg hnot1, if_neg hnot2]
    split_ifs <;> simp_all [actionRank] <;> omega

/-- Witness for C3: concrete instances of a table row with a hold
requested (score 45), the hold override (score 10), the APPROVE row
without a hold (score 20), and the monotonicity clause with a hold
requested at scores 31 < 80. -/
theorem decision_mapping_table_witness :
    ((determineAction 45 (some { score := 0, should_hold_funds := true })).1 =
        .challenge_soft ∧
      (determineAction 45 (some { score := 0, should_hold_funds := true })).2.1 =
        some .sms_otp) ∧
    ((determineAction 10 (some { score := 0, should_hold_funds := true })).1 =
        .challenge_hard ∧
      (determineAction 10 (some { score := 0, should_hold_funds := true })).2.1 =
        some .threeds) ∧
    ((determineAction 20 none).1 = .approve ∧ (determineAction 20 none).2.1 = none) ∧
    actionRank (determineAction 31 (some { score := 0, should_hold_funds := true })).1 ≤
      actionRank (determineAction 80 (some { score := 0, should_hold_funds := true })).1 :=
  ⟨(decision_mapping_table.1 45 (some { score := 0, should_hold_funds := true })
      (by decide) (by decide)).2.2.1 (by decide) (by decide),
   (decision_mapping_table.1 10 (some { score := 0, should_hold_funds := true })
      (by decide) (by decide)).1 (by decide) (by decide),
   (decision_mapping_table.1 20 none (by decide) (by decide)).2.1 (by decide) (by decide),
   decision_mapping_table.2 31 80 (some { score := 0, should_hold_funds := true })
      (by decide) (by decide)⟩

theorem evaluateMain_risk_eq (p : TransactionPayload) (rate : ℤ × List String)
    (o : DetectorOutcomes) (txid : String) (ms : ℤ) (secret : List Nat) :
    (evaluateMain p rate o txid ms secret).risk_score =
      (stageOverrides o.geo (p2pResultOf p o)
        (stageSignalCodes p o (stageTimePattern o.time_pattern (stageCardTesting o.card_testing
        (stageSession o.session_guard (stageIpHistory o.ip_history (stageGps p
        (stageRate rate (stageHistory p ⟨baseScore p o, []⟩))))))))).score := rfl

theorem stageOverrides_ge76 (g : GeoAnalysisResult) (q : Option P2PAnalysisResult)
    (a : ScoreAcc) (h : g.impossible_travel_detected = true) :
    76 ≤ (stageOverrides (some g) q a).score := by
  unfold stageOverrides
  dsimp only
  rw [if_pos h]
  match q with
  | none => exact le_max_right _ _
  | some qr =>
    dsimp only
    split
    · exact le_trans (le_max_right _ _) (le_max_left _ _)
    · exact le_max_right _ _

theorem stageOverrides_ge91 (g : Option GeoAnalysisResult) (q : P2PAnalysisResult)
    (a : ScoreAcc) (h : q.mule_pattern_detected = true) :
    91 ≤ (stageOverrides g (some q) a).score := by
  unfold stageOverrides
  dsimp only
  rw [if_pos h]
  exact le_max_right _ _

/-- C4: if the geo detector reports impossible travel, the final risk
score is at least 76; if the consulted P2P detector result reports a
mule pattern, the final risk score is at least 91; when both hold, both
bounds hold simultaneously; and the override stage only ever raises the
previously computed score. -/
theorem override_floors_compose (p : TransactionPayload) (blCache : Option BlacklistCache)
    (rate : ℤ × List String) (o : DetectorOutcomes) (txid : String) (ms : ℤ)
    (secret : List Nat) :
    ((∃ g, o.geo = some g ∧ g.impossible_travel_detected = true) →
      76 ≤ (evaluateTransaction p blCache rate o txid ms secret).risk_score) ∧
    ((p.transaction_type = "P2P_SEND" ∧ p.recipient_id.isSome = true ∧
      ∃ q, o.p2p = some q ∧ q.mule_pattern_detected = true) →
      91 ≤ (evaluateTransaction p blCache rate o txid ms secret).risk_score) ∧
    (((∃ g, o.geo = some g ∧ g.impossible_travel_detected = true) ∧
      (p.transaction_type = "P2P_SEND" ∧ p.recipient_id.isSome = true ∧
       ∃ q, o.p2p = some q ∧ q.mule_pattern_detected = true)) →
      76 ≤ (evaluateTransaction p blCache rate o txid ms secret).risk_score ∧
      91 ≤ (evaluateTransaction p blCache rate o txid ms secret).risk_score) ∧
    (∀ (g : Option GeoAnalysisResult) (q : Option P2PAnalysisResult) (a : ScoreAcc),
      a.score ≤ (stageOverrides g q a).score) := by
  have hgeo : (∃ g, o.geo = some g ∧ g.impossible_travel_detected = true) →
      76 ≤ (evaluateTransaction p blCache rate o txid ms secret).risk_score := by
    rintro ⟨g, hg, hflag⟩
    unfold evaluateTransaction
    dsimp only
    split
    · rw [buildResponse_risk_score]; norm_num
    · rw [evaluateMain_risk_eq, hg]
      exact stageOverrides_ge76 g _ _ hflag
  have hp2p : (p.transaction_type = "P2P_SEND" ∧ p.recipient_id.isSome = true ∧
      ∃ q, o.p2p = some q ∧ q.mule_pattern_detected = true) →
      91 ≤ (evaluateTransaction p blCache rate o txid ms secret).risk_score := by
    rintro ⟨htt, hrec, q, hq, hflag⟩
    unfold evaluateTransaction
    dsimp only
    split
    · rw [buildResponse_risk_score]; norm_num
    · rw [evaluateMain_risk_eq]
      have hres : p2pResultOf p o = some q := by
        simp [p2pResultOf, htt, hrec, hq]
      rw [hres]
      exact stageOverrides_ge91 _ q _ hflag
  exact ⟨hgeo, hp2p, fun hboth => ⟨hgeo hboth.1, hp2p hboth.2⟩, stageOverrides_mono⟩

/-- Witness for C4: the concrete geo-override outcomes raise the score
to at least 76 (in fact exactly 76 for the neutral payload), and a
concrete P2P mule pattern forces at least 91. -/
theorem override_floors_compose_witness :
    (76 ≤ (evaluateTransaction neutralPayload none (0, []) geoOverrideOutcomes
      ("tx-c4") 5 []).risk_score) ∧
    (91 ≤ (evaluateTransaction
      { neutralPayload with transaction_type := "P2P_SEND", recipient_id := some ("R1") }
      none (0, [])
      { p2p := some { score := 25, mule_pattern_detected := true } }
      "tx-c4b" 5 []).risk_score) :=
  ⟨(override_floors_compose neutralPayload none (0, []) geoOverrideOutcomes ("tx-c4") 5 []).1
      ⟨_, rfl, rfl⟩,
   ((override_floors_compose
      { neutralPayload with transaction_type := "P2P_SEND", recipient_id := some ("R1") }
      none (0, []) { p2p := some { score := 25, mule_pattern_detected := true } }
      "tx-c4b" 5 []).2.1) ⟨rfl, rfl, _, rfl, rfl⟩⟩

theorem signablePayload_eq_canonical (txid actionVal : String) (score : ℤ) :
    signablePayload txid actionVal score = canonicalSignable txid actionVal score := rfl

theorem buildResponse_signature_canonical (txid : String) (ad : ActionDecision) (s : ℤ)
    (ch : Option ChallengeType) (rc : List String) (msg : String) (ms : ℤ)
    (secret : List Nat) :
    (buildResponse txid ad s ch rc msg ms secret).signature =
      hmacSha256Hex secret (utf8Bytes (canonicalSignable
        (buildResponse txid ad s ch rc msg ms secret).transaction_id
        (actionValue (buildResponse txid ad s ch rc msg ms secret).action)
        (buildResponse txid ad s ch rc msg ms secret).risk_score)) := rfl

/-- C5: the signature of every returned evaluation — both the blacklist
short-circuit response and the normal pipeline response — is the
lowercase-hex HMAC-SHA256, under the process secret, of the UTF-8 bytes
of the canonical JSON object holding exactly the keys `transaction_id`,
`action` and `risk_score` of that same response, serialized with sorted
keys and `(",", ":")` separators and no extra whitespace. -/
theorem signature_is_canonical_hmac (p : TransactionPayload)
    (blCache : Option BlacklistCache) (rate : ℤ × List String) (o : DetectorOutcomes)
    (txid : String) (ms : ℤ) (secret : List Nat) :
    (evaluateTransaction p blCache rate o txid ms secret).signature =
      hmacSha256Hex secret (utf8Bytes (canonicalSignable
        (evaluateTransaction p blCache rate o txid ms secret).transaction_id
        (actionValue (evaluateTransaction p blCache rate o txid ms secret).action)
        (evaluateTransaction p blCache rate o txid ms secret).risk_score)) := by
  unfold evaluateTransaction
  dsimp only
  split
  · exact buildResponse_signature_canonical _ _ _ _ _ _ _ _
  · unfold evaluateMain
    exact buildResponse_signature_canonical _ _ _ _ _ _ _ _

/-- C6 (divergence witness): against an initially empty session store,
the first request with (session S1, user U1) atomically claims the key
with a clean result — but a second request with the *same* user is
classified as a session hijack (override to 100, reason
`SESSION_HIJACK_DETECTED`, penalty 60), not as the +40 replay the spec
describes: the stored value is the `bytes` returned by the
`decode_responses=False` Redis client while the comparison is against
the `str` user id, and `bytes == str` is always false in Python. -/
theorem session_guard_same_user_misclassified :
    (sessionGuardCheck emptySessionStore ("S1") "U1").1 = ({} : SessionGuardResult) ∧
    (sessionGuardCheck emptySessionStore ("S1") "U1").2 ("session:" ++ "S1") =
      some (utf8Bytes ("U1")) ∧
    (sessionGuardCheck (sessionGuardCheck emptySessionStore ("S1") "U1").2 ("S1") "U1").1 =
      { penalty := 60, reason_codes := ["SESSION_HIJACK_DETECTED"], override_block := true } ∧
    (stageSession
      (some (sessionGuardCheck (sessionGuardCheck emptySessionStore ("S1") "U1").2 ("S1") "U1").1)
      ⟨19, []⟩).score = 100 := by
  refine ⟨by decide, by decide, by decide, by decide⟩

set_option maxRecDepth 8192 in
/-- C7 counterexample, on a real reachable execution (the blacklist
short-circuit runs before the task-list construction at which the
source raises TypeError, so blacklist responses are the Evaluations the
program actually returns).  A payload using the blacklisted BIN 999999
yields risk score 100 caused entirely by its single reason code
`BLACKLIST_BIN_HIT`, yet the breakdown entry for that code carries 0
points (the code is absent from both catalogs — the exact catalog only
has `BLACKLIST_CARD_HIT`), so the code that altered the final score
does not carry its contribution, and the non-zero points sum to 0, not
`100 − 0` (no detector ran, so every module contribution — any sensible
neutral baseline — is 0).  The structurally identical device-hit run
carries 100 points for the same +100 alteration, confirming the points
are static catalog values rather than contributions. -/
theorem breakdown_contribution_counterexample :
    (evaluateTransaction binHitPayload (some binOnlyCache) (0, []) allFailedOutcomes
      ("tx-c7") 5 []).risk_score = 100 ∧
    (evaluateTransaction binHitPayload (some binOnlyCache) (0, []) allFailedOutcomes
      ("tx-c7") 5 []).reason_codes = ["BLACKLIST_BIN_HIT"] ∧
    (evaluateTransaction binHitPayload (some binOnlyCache) (0, []) allFailedOutcomes
      ("tx-c7") 5 []).score_breakdown =
      [⟨"BLACKLIST_BIN_HIT", 0, "Otro", "Señal detectada: blacklist bin hit."⟩] ∧
    nonzeroPointsSum (evaluateTransaction binHitPayload (some binOnlyCache) (0, [])
      allFailedOutcomes ("tx-c7") 5 []).score_breakdown = 0 ∧
    ¬((0 : ℤ) = 100 - 0) ∧
    ((evaluateTransaction evilDevicePayload (some evilDeviceCache) (0, []) allFailedOutcomes
      ("tx-c7b") 5 []).score_breakdown.map (fun e => (e.code, e.points))) =
      [("BLACKLIST_DEVICE_HIT", 100)] := by
  with_unfolding_all decide

/-- C7 as amended: each breakdown entry carries the static reference
points, category and description that the reason catalog assigns to its
code (exact key first, then first matching prefix, else 0 points and
category Otro); duplicate codes are dropped keeping the first
occurrence; entries are sorted descending by points. -/
theorem breakdown_static_catalog_points (codes : List String) :
    (buildBreakdown codes).Pairwise (fun a b => b.points ≤ a.points) ∧
    (∀ e ∈ buildBreakdown codes, e = catalogEntry e.code) ∧
    List.Perm ((buildBreakdown codes).map (·.code)) (pyDedup codes) := by
  refine ⟨?_, ?_, ?_⟩
  · have h := sortBy_pairwise (fun a b : ScoreEntry => decide (b.points ≤ a.points))
      (fun a b => by
        rcases le_total b.points a.points with h | h
        · exact Or.inl (decide_eq_true h)
        · exact Or.inr (decide_eq_true h))
      (fun a b c hab hbc =>
        decide_eq_true (le_trans (of_decide_eq_true hbc) (of_decide_eq_true hab)))
      ((pyDedup codes).map catalogEntry)
    exact h.imp of_decide_eq_true
  · intro e he
    have he2 : e ∈ (pyDedup codes).map catalogEntry :=
      (sortBy_perm _ _).mem_iff.mp he
    rcases List.mem_map.mp he2 with ⟨c, _, rfl⟩
    rw [catalogEntry_code]
  · have h1 : List.Perm ((buildBreakdown codes).map (·.code))
        (((pyDedup codes).map catalogEntry).map (·.code)) :=
      (sortBy_perm (fun a b : ScoreEntry => decide (b.points ≤ a.points))
        ((pyDedup codes).map catalogEntry)).map (·.code)
    have h2 : ∀ l : List String, (l.map catalogEntry).map (·.code) = l := by
      intro l
      induction l with
      | nil => rfl
      | cons x xs ih => simp [catalogEntry_code, ih]
    rw [h2 (pyDedup codes)] at h1
    exact h1

set_option maxRecDepth 8192 in
/-- Witness for C7 (amended) at a concrete code list with a duplicate. -/
theorem breakdown_static_catalog_points_witness :
    (catalogEntry ("SESSION_REPLAY_ATTACK") ∈
      buildBreakdown ["SESSION_REPLAY_ATTACK", "FOOBAR", "SESSION_REPLAY_ATTACK"]) ∧
    catalogEntry ("SESSION_REPLAY_ATTACK") =
      catalogEntry (catalogEntry ("SESSION_REPLAY_ATTACK")).code :=
  ⟨by decide,
   (breakdown_static_catalog_points
     ["SESSION_REPLAY_ATTACK", "FOOBAR", "SESSION_REPLAY_ATTACK"]).2.1 _ (by decide)⟩

/-- C8 (divergence witness): `evaluate_transaction` never reads
`form_fill_time_seconds`. Changing the field to any value — including
values below 3 seconds, between 3 and 8 seconds, or above 900 seconds —
leaves the entire response unchanged, so no form-fill-time rule
(+30 / +15 / +10) is applied anywhere in the pipeline. -/
theorem form_fill_time_ignored (p : TransactionPayload) (v : Option ℤ)
    (blCache : Option BlacklistCache) (rate : ℤ × List String) (o : DetectorOutcomes)
    (txid : String) (ms : ℤ) (secret : List Nat) :
    evaluateTransaction { p with form_fill_time_seconds := v } blCache rate o txid ms secret =
      evaluateTransaction p blCache rate o txid ms secret := rfl

/-- C9 (divergence witness): the orchestrator cannot add the
time-pattern penalty at all, weighted or raw.  The keyword arguments it
passes when creating the task (`user_id`, `account_age_days`,
`fraud_orchestrator.py` lines 405-408) do not bind to the parameter
list of `TimePatternScorer.score` (only `user_id`,
`time_pattern_scorer.py` lines 48-51, no catch-all keyword parameter),
so Python raises TypeError while the task list is being built — before
`asyncio.gather` and before any detector result can be consumed — and
every non-blacklisted evaluation aborts with no Evaluation returned.
The detector logic itself would produce the claimed +15 (counter ≥ 10,
bit 0), and the score-update statement the orchestrator would reach at
line 563 adds a time-pattern penalty raw (19 + 15 → 34), not weighted
by W₄ = 0.20 (⌊W₄·15⌋ = 3), so even with the call signature repaired
the claimed weighting would not hold. -/
theorem time_pattern_call_raises :
    kwargsBind timePatternScoreParams timePatternCallKwargs = false ∧
    (timePatternScore [0] (some 10) 5).penalty = 15 ∧
    (timePatternScore [0] (some 10) 5).reason_codes = ["UNUSUAL_HOUR_5H_NEVER_ACTIVE"] ∧
    stageTimePattern (some { penalty := 15, reason_codes := ["X"] }) ⟨19, []⟩ =
      ⟨34, ["X"]⟩ ∧
    ¬((15 : ℤ) = ⌊W4_BEHAVIOR * 15⌋) := by
  with_unfolding_all decide

theorem breakdown_codes_perm (codes : List String) :
    List.Perm ((buildBreakdown codes).map (·.code)) (pyDedup codes) := by
  have h1 : List.Perm ((buildBreakdown codes).map (·.code))
      (((pyDedup codes).map catalogEntry).map (·.code)) :=
    (sortBy_perm (fun a b : ScoreEntry => decide (b.points ≤ a.points))
      ((pyDedup codes).map catalogEntry)).map (·.code)
  have h2 : ∀ l : List String, (l.map catalogEntry).map (·.code) = l := by
    intro l
    induction l with
    | nil => rfl
    | cons x xs ih => simp [catalogEntry_code, ih]
  rw [h2 (pyDedup codes)] at h1
  exact h1

/-- C10: `_build_breakdown` is total over arbitrary reason-code lists:
for every input list of strings it returns exactly one entry per
distinct code (duplicates dropped keeping the first occurrence), and a
code matching neither an exact catalog key nor any catalog prefix still
yields a well-formed entry with points 0 and category Otro — an unknown
reason code can never make response building fail. -/
theorem breakdown_total_on_arbitrary_codes (codes : List String) :
    List.Perm ((buildBreakdown codes).map (·.code)) (pyDedup codes) ∧
    (∀ c, c ∈ codes → ((buildBreakdown codes).map (·.code)).count c = 1) ∧
    (∀ c, c ∈ codes → lookupExact c = none → lookupPrefixed c = none →
      ∃ e, e ∈ buildBreakdown codes ∧ e.code = c ∧ e.points = 0 ∧ e.category = "Otro") := by
  refine ⟨breakdown_codes_perm codes, ?_, ?_⟩
  · intro c hc
    rw [(breakdown_codes_perm codes).count_eq]
    exact List.count_eq_one_of_mem (nodup_pyDedup codes) ((mem_pyDedup c codes).mpr hc)
  · intro c hc h1 h2
    refine ⟨catalogEntry c, ?_, catalogEntry_code c, ?_, ?_⟩
    · exact (sortBy_perm _ _).mem_iff.mpr
        (List.mem_map_of_mem catalogEntry ((mem_pyDedup c codes).mpr hc))
    · simp [catalogEntry, h1, h2]
    · simp [catalogEntry, h1, h2]

set_option maxRecDepth 8192 in
/-- Witness for C10 at a concrete list holding a duplicated known code
and a code unknown to both catalogs. -/
theorem breakdown_total_on_arbitrary_codes_witness :
    ("TOTALLY_UNKNOWN_CODE" ∈
      ["SESSION_REPLAY_ATTACK", "TOTALLY_UNKNOWN_CODE", "SESSION_REPLAY_ATTACK"] ∧
     lookupExact ("TOTALLY_UNKNOWN_CODE") = none ∧
     lookupPrefixed ("TOTALLY_UNKNOWN_CODE") = none) ∧
    ((buildBreakdown
        ["SESSION_REPLAY_ATTACK", "TOTALLY_UNKNOWN_CODE", "SESSION_REPLAY_ATTACK"]).map
        (·.code)).count ("SESSION_REPLAY_ATTACK") = 1 ∧
    (∃ e, e ∈ buildBreakdown
        ["SESSION_REPLAY_ATTACK", "TOTALLY_UNKNOWN_CODE", "SESSION_REPLAY_ATTACK"] ∧
      e.code = "TOTALLY_UNKNOWN_CODE" ∧ e.points = 0 ∧ e.category = "Otro") :=
  ⟨⟨by decide, by decide, by with_unfolding_all decide⟩,
   (breakdown_total_on_arbitrary_codes
     ["SESSION_REPLAY_ATTACK", "TOTALLY_UNKNOWN_CODE", "SESSION_REPLAY_ATTACK"]).2.1
     ("SESSION_REPLAY_ATTACK") (by decide),
   (breakdown_total_on_arbitrary_codes
     ["SESSION_REPLAY_ATTACK", "TOTALLY_UNKNOWN_CODE", "SESSION_REPLAY_ATTACK"]).2.2
     ("TOTALLY_UNKNOWN_CODE") (by decide) (by decide) (by with_unfolding_all decide)⟩
